import Mathlib

/-!
# Keyless entry over single-sided two-way ranging: a verification development

Shallow embedding of the two engines of the repository,

* `src/ss_twr_init_int/ss_init_main.c` (`ss_init_run`, called the initiator), and
* `src/ss_twr_resp/ss_resp_main.c` (`ss_resp_run`, called the responder),

together with the helpers they share (`mod_pow`, the timestamp readers, the
final-frame timestamp codec).

Conventions of the embedding.

* Machine integers are natural numbers; every place where C arithmetic wraps is an
  explicit `u8`, `u32` or `u64`.
* Byte arrays are `List Nat`.
* The driver (`dwt_*`), the GPIO layer and `printf` are not part of the sources.  What
  the engines read from them is an explicit environment record, what the engines ask of
  them is appended to a log of `Action`s.
* The interrupt callbacks only set flags.  A busy-wait loop is modelled by the flags the
  callbacks have raised when the loop is left; a loop that is never left makes the cycle
  return `none`.
* `double` arithmetic is read exactly, over `ℚ`.
-/

namespace KeylessEntry

/-! ## Machine integers -/

/-- Conversion to `uint8_t`. -/
def u8 (x : Nat) : Nat := x % 256

/-- Conversion to `uint32_t` (`uint32`). -/
def u32 (x : Nat) : Nat := x % 4294967296

/-- Conversion to `uint64`. -/
def u64 (x : Nat) : Nat := x % 18446744073709551616

/-! ## Key agreement: `mod_pow` (identical in both source files) -/

/-- The `while (exp > 0)` loop of `mod_pow`.  `result` is a `uint8_t`, `base`, `exp` and
`mod` are `uint32_t`: the products are computed in 32-bit unsigned arithmetic, and the
reduced product is converted to `uint8_t` when it is stored in `result`. -/
def mod_pow_loop (result base exp mod : Nat) : Nat :=
  if 0 < exp then
    mod_pow_loop (if exp % 2 = 1 then u8 (u32 (result * base) % mod) else result)
      (u32 (base * base) % mod) (exp / 2) mod
  else result
termination_by exp
decreasing_by omega

/-- Source function `uint8_t mod_pow(uint32_t base, uint32_t exp, uint32_t mod)`:
`result = 1; base = base % mod;` then the loop.  The arguments are `uint32_t` values
(below `2 ^ 32`); `mod = 0` is a division by zero in C and outside the model. -/
def mod_pow (base exp mod : Nat) : Nat :=
  mod_pow_loop 1 (base % mod) exp mod

/-- Source function `diffie_hellman`: the shared key, returned as a `uint32_t`. -/
def diffie_hellman (private_key public_key prime : Nat) : Nat :=
  mod_pow public_key private_key prime

/-! ## Frames and constants -/

/-- Initiator template `rx_poll_msg` (26 bytes); `W A V E` are 0x57 0x41 0x56 0x45. -/
def rx_poll_msg : List Nat :=
  [0x41, 0x88, 0, 0xDE, 0xCA, 0x57, 0x41, 0x56, 0x45, 0x21,
   0, 0, 0, 0, 0, 0, 0, 0, 0, 0, 0, 0, 0, 0, 0, 0]

/-- Initiator template `tx_resp_msg` (27 bytes), the initial value of the array. -/
def tx_resp_msg : List Nat :=
  [0x41, 0x88, 0, 0xCA, 0xDE, 0x56, 0x45, 0x57, 0x41, 0x10, 0x02,
   0, 0, 0, 0, 0, 0, 0, 0, 0, 0, 0, 0, 0, 0, 0, 0]

/-- Initiator template `rx_final_msg` (26 bytes). -/
def rx_final_msg : List Nat :=
  [0x41, 0x88, 0, 0xCA, 0xDE, 0x57, 0x41, 0x56, 0x45, 0x23,
   0, 0, 0, 0, 0, 0, 0, 0, 0, 0, 0, 0, 0, 0, 0, 0]

/-- Responder template `tx_poll_msg` (26 bytes), the initial value of the array. -/
def tx_poll_msg : List Nat :=
  [0x41, 0x88, 0, 0xDE, 0xCA, 0x57, 0x41, 0x56, 0x45, 0x21,
   0, 0, 0, 0, 0, 0, 0, 0, 0, 0, 0, 0, 0, 0, 0, 0]

/-- Responder template `rx_resp_msg` (27 bytes). -/
def rx_resp_msg : List Nat :=
  [0x41, 0x88, 0, 0xCA, 0xDE, 0x56, 0x45, 0x57, 0x41, 0x10, 0x02,
   0, 0, 0, 0, 0, 0, 0, 0, 0, 0, 0, 0, 0, 0, 0, 0]

/-- Responder template `tx_final_msg` (26 bytes), the initial value of the array. -/
def tx_final_msg : List Nat :=
  [0x41, 0x88, 0, 0xCA, 0xDE, 0x57, 0x41, 0x56, 0x45, 0x23,
   0, 0, 0, 0, 0, 0, 0, 0, 0, 0, 0, 0, 0, 0, 0, 0]

def ALL_MSG_COMMON_LEN : Nat := 10
def ALL_MSG_SN_IDX : Nat := 2
def FINAL_MSG_POLL_TX_TS_IDX : Nat := 10
def FINAL_MSG_RESP_RX_TS_IDX : Nat := 14
def FINAL_MSG_FINAL_TX_TS_IDX : Nat := 18
def FINAL_MSG_TS_LEN : Nat := 4
def RX_BUF_LEN : Nat := 26
def UUS_TO_DWT_TIME : Nat := 65536
def SPEED_OF_LIGHT : Nat := 299702547
def RNG_DELAY_MS : Nat := 80
def RESP_TX_TO_FINAL_RX_DLY_UUS : Nat := 500
/-- Initiator constant (the responder file defines the same name as 1100 and never uses it). -/
def POLL_RX_TO_RESP_TX_DLY_UUS : Nat := 1200
def RESP_RX_TO_FINAL_TX_DLY_UUS : Nat := 4000
def LED3 : Nat := 14

/-- Constants that the engines take from headers outside the two source files, and the one
piece of platform behaviour the estimator depends on. -/
structure Platform where
  /-- Macro `DWT_TIME_UNITS`: seconds per device time unit. -/
  DWT_TIME_UNITS : ℚ
  /-- Macro `TX_ANT_DLY`. -/
  TX_ANT_DLY : Nat
  /-- Macro `RX_BUFFER_LEN`, the read limit used by `ss_resp_run` (the array `rx_buffer`
  itself has `RX_BUF_LEN` bytes). -/
  RX_BUFFER_LEN : Nat
  /-- What the conversion `(int64)` returns when the `double` quotient of the estimator is
  not a number.  C leaves that conversion undefined; the value is whatever the platform
  does. -/
  int64_of_nan : Int

/-- `memcmp(a, b, n) == 0` for arrays that have at least `n` bytes. -/
def memcmp_eq (a b : List Nat) (n : Nat) : Bool :=
  decide (a.take n = b.take n)

/-- Driver call `dwt_readrxdata(buffer, length, 0)` where `length` is the length of the
received frame: the bytes of the frame replace the first bytes of the array.  Bytes that
would land behind the end of the array are not represented. -/
def dwt_readrxdata (buffer frame : List Nat) : List Nat :=
  (frame ++ buffer.drop frame.length).take buffer.length

/-- What `dwt_writetxdata(size, msg, 0)` hands to the radio: `size - 2` bytes of the
message, the last two bytes of a frame being the checksum appended by the device (see the
NOTE of the sources on `dwt_writetxdata`). -/
def tx_payload (size : Nat) (msg : List Nat) : List Nat :=
  msg.take (size - 2)

/-! ## Timestamps -/

/-- The loop shared by `get_rx_timestamp_u64` and `get_tx_timestamp_u64`:
`for (i = 4; i >= 0; i--) { ts <<= 8; ts |= ts_tab[i]; }` on a `uint64`. -/
def timestamp_u64 (ts_tab : List Nat) : Nat :=
  [4, 3, 2, 1, 0].foldl (fun ts i => u64 (ts <<< 8) ||| ts_tab.getD i 0) 0

/-- Source function `get_rx_timestamp_u64`, as a function of the five bytes that
`dwt_readrxtimestamp` delivers. -/
def get_rx_timestamp_u64 (ts_tab : List Nat) : Nat := timestamp_u64 ts_tab

/-- Source function `get_tx_timestamp_u64`, as a function of the five bytes that
`dwt_readtxtimestamp` delivers. -/
def get_tx_timestamp_u64 (ts_tab : List Nat) : Nat := timestamp_u64 ts_tab

/-- Source function `final_msg_get_ts` (initiator): `*ts = 0;` then
`*ts += ts_field[i] << (i * 8)` for `i = 0..3`, in `uint32`. -/
def final_msg_get_ts (ts_field : List Nat) : Nat :=
  [0, 1, 2, 3].foldl (fun ts i => u32 (ts + (ts_field.getD i 0 <<< (i * 8)))) 0

/-- Source function `final_msg_set_ts` (responder), writing at `&msg[idx]`:
`ts_field[i] = (ts >> (i * 8)) & 0xFF` for `i = 0..3`. -/
def final_msg_set_ts (msg : List Nat) (idx ts : Nat) : List Nat :=
  [0, 1, 2, 3].foldl (fun m i => m.set (idx + i) ((ts >>> (i * 8)) &&& 0xFF)) msg

/-- Subtraction of two `uint32` values. -/
def sub32 (a b : Nat) : Nat := u32 (u32 a + (4294967296 - u32 b))

/-! ## Distance estimator (initiator) -/

/-- Conversion of a `double` to `int64`: truncation toward zero. -/
def trunc_int64 (q : ℚ) : Int := if 0 ≤ q then ⌊q⌋ else ⌈q⌉

/-- The statement `tof_dtu = (int64)((Ra * Rb - Da * Db) / (Ra + Rb + Da + Db));` read
exactly.  The source has no test of the divisor: the case distinction below is the one of
the arithmetic, not of the program.  The four operands are converted `uint32` values, so
the divisor is zero only if all four are, the quotient `0.0 / 0.0` is then not a number,
and the converted value is the one of the platform.  With a non-zero divisor the quotient
is at most the largest operand in absolute value, hence in the range of `int64`. -/
def estimate_tof_dtu (P : Platform) (Ra Rb Da Db : ℚ) : Int :=
  if Ra + Rb + Da + Db = 0 then P.int64_of_nan
  else trunc_int64 ((Ra * Rb - Da * Db) / (Ra + Rb + Da + Db))

/-! ## What the engines ask of their collaborators -/

/-- The `printf` calls of `ss_init_run`. -/
inductive Printed
  | public_key (v : Nat)
  | poll_msg_r
  | transmission (count : Nat)
  | ans (v : Nat)
  | shared_key (v : Nat)
  | match_ (v : Bool)
  | distance (d : ℚ)
  deriving DecidableEq, Repr

/-- The mode argument of `dwt_starttx`, as written at the three call sites. -/
inductive StartMode
  | tx_immediate_response_expected
  | rx_delayed
  | rx_immediate
  deriving DecidableEq, Repr

/-- The masks written to `SYS_STATUS_ID` by `ss_resp_run`. -/
inductive StatusMask
  | rxfcg_txfrs
  | txfrs
  | all_rx_err
  deriving DecidableEq, Repr

/-- Driver, GPIO and console calls, in the order the engines make them.  A pin level is
recorded relative to `LEDS_ACTIVE_STATE`: `pin_write n true` is
`nrf_gpio_pin_write(n, LEDS_ACTIVE_STATE ? 1 : 0)`, `pin_write n false` is
`nrf_gpio_pin_write(n, LEDS_ACTIVE_STATE ? 0 : 1)`. -/
inductive Action
  | cfg_output (pin : Nat)
  | pin_write (pin : Nat) (active : Bool)
  | pin_set (pin : Nat)
  | pin_clear (pin : Nat)
  | printf (what : Printed)
  | setrxtimeout (time : Nat)
  | rxenable
  | rxreset
  | setdelayedtrxtime (starttime : Nat)
  | setrxaftertxdelay (delay : Nat)
  | writetxdata (size : Nat) (payload : List Nat)
  | writetxfctrl (size : Nat)
  | starttx (mode : StartMode)
  | readdevid
  | write_status (mask : StatusMask)
  | deca_sleep (ms : Nat)
  deriving DecidableEq, Repr

/-- Flags raised by the callbacks `rx_ok_cb`, `rx_to_cb`, `rx_err_cb` while the engine
sits in a wait loop. -/
structure Raised where
  rx_ok : Bool
  rx_to : Bool
  rx_err : Bool
  deriving DecidableEq, Repr

/-! ## The initiator engine: `ss_init_run` -/

/-- The static variables of `ss_init_main.c` that `ss_init_run` touches, the level of the
two output pins (relative to `LEDS_ACTIVE_STATE`), and the log of calls. -/
structure InitState where
  rx_buffer : List Nat
  tx_resp_msg : List Nat
  frame_seq_nb : Nat
  tof : ℚ
  distance : ℚ
  tx_int_flag : Bool
  rx_int_flag : Bool
  to_int_flag : Bool
  er_int_flag : Bool
  tx_count : Nat
  poll_rx_ts : Nat
  resp_tx_ts : Nat
  final_rx_ts : Nat
  pin14 : Bool
  pin27 : Bool
  log : List Action
  deriving DecidableEq, Repr

/-- Everything one run of `ss_init_run` reads from outside. -/
structure InitEnv where
  /-- Value returned by `rand()`. -/
  rand : Nat
  /-- Flags raised when the first wait loop is left. -/
  poll_wait : Raised
  /-- Frame in the receiver at the first read, checksum included; its length is the
  frame length reported by `RX_FINFO`. -/
  poll_frame : List Nat
  /-- Five bytes of `dwt_readrxtimestamp` after the poll. -/
  poll_rx_stamp : List Nat
  /-- Whether `tx_conf_cb` ever fires after `dwt_starttx`. -/
  tx_conf : Bool
  /-- Flags raised when the second wait loop is left. -/
  final_wait : Raised
  /-- Frame in the receiver at the second read. -/
  final_frame : List Nat
  /-- Five bytes of `dwt_readtxtimestamp` after the response was sent. -/
  resp_tx_stamp : List Nat
  /-- Five bytes of `dwt_readrxtimestamp` after the final frame. -/
  final_rx_stamp : List Nat

/-- Append a call to the log. -/
def InitState.emit (s : InitState) (a : Action) : InitState :=
  { s with log := s.log ++ [a] }

/-- The four `uint32` differences of lines 273-276, before their conversion to `double`. -/
structure RoundTrips where
  Ra : Nat
  Rb : Nat
  Da : Nat
  Db : Nat
  deriving DecidableEq, Repr

/-- Lines 264-276: the three timestamps of the final frame are taken from `rx_buffer`,
the three local ones are cut to 32 bits, and the four differences are formed. -/
def init_round_trips (rx_buffer : List Nat) (poll_rx_ts resp_tx_ts final_rx_ts : Nat) :
    RoundTrips :=
  let poll_tx_ts := final_msg_get_ts (rx_buffer.drop FINAL_MSG_POLL_TX_TS_IDX)
  let resp_rx_ts := final_msg_get_ts (rx_buffer.drop FINAL_MSG_RESP_RX_TS_IDX)
  let final_tx_ts := final_msg_get_ts (rx_buffer.drop FINAL_MSG_FINAL_TX_TS_IDX)
  let poll_rx_ts_32 := u32 poll_rx_ts
  let resp_tx_ts_32 := u32 resp_tx_ts
  let final_rx_ts_32 := u32 final_rx_ts
  { Ra := sub32 resp_rx_ts poll_tx_ts
    Rb := sub32 final_rx_ts_32 resp_tx_ts_32
    Da := sub32 final_tx_ts resp_rx_ts
    Db := sub32 resp_tx_ts_32 poll_rx_ts_32 }

/-- Lines 170-179: `rx_buffer` when the poll is checked.  The frame is read only if
`frame_len <= RX_BUF_LEN`; the sequence-number byte is cleared in any case. -/
def init_poll_buffer (e : InitEnv) (rx_buffer : List Nat) : List Nat :=
  let frame_len := e.poll_frame.length
  let rx_buffer :=
    if frame_len ≤ RX_BUF_LEN then dwt_readrxdata rx_buffer e.poll_frame else rx_buffer
  rx_buffer.set ALL_MSG_SN_IDX 0

/-- Lines 231-243: `rx_buffer` when the final frame is checked.  The frame is read only if
`frame_len <= 20` or `frame_len` is 24, 25 or 26. -/
def init_final_buffer (e : InitEnv) (rx_buffer : List Nat) : List Nat :=
  let frame_len := e.final_frame.length
  let rx_buffer :=
    if frame_len ≤ 20 then dwt_readrxdata rx_buffer e.final_frame
    else if frame_len = 24 ∨ frame_len = 25 ∨ frame_len = 26 then
      dwt_readrxdata rx_buffer e.final_frame
    else rx_buffer
  rx_buffer.set ALL_MSG_SN_IDX 0

/-- Lines 284-294: the gate `if (match) { if (distance < 1.0) ... else ... }`.  There is
no `else` for `match`. -/
def init_gate (match_ : Bool) (s : InitState) : InitState :=
  if match_ then
    if s.distance < 1 then
      let s := { s.emit (.pin_write 14 true) with pin14 := true }
      let s := { s.emit (.pin_write 27 true) with pin27 := true }
      s.emit (.printf (.distance s.distance))
    else
      let s := { s.emit (.pin_write 14 false) with pin14 := false }
      { s.emit (.pin_write 27 false) with pin27 := false }
  else s

/-- Lines 248-299 of `ss_init_main.c`: the block run when the final frame has passed the
prefix check.  `shared_key` is the local computed after the poll. -/
def init_final_accepted (P : Platform) (e : InitEnv) (shared_key : Nat) (s : InitState) :
    InitState :=
  let s := { s with resp_tx_ts := get_tx_timestamp_u64 e.resp_tx_stamp }
  let s := { s with final_rx_ts := get_rx_timestamp_u64 e.final_rx_stamp }
  let ans := s.rx_buffer.getD 23 0
  let s := s.emit (.printf (.ans ans))
  let s := s.emit (.printf (.shared_key shared_key))
  let match_ := decide (ans = shared_key)
  let s := s.emit (.printf (.match_ match_))
  let r := init_round_trips s.rx_buffer s.poll_rx_ts s.resp_tx_ts s.final_rx_ts
  let tof_dtu : Int := estimate_tof_dtu P r.Ra r.Rb r.Da r.Db
  let s := { s with tof := (tof_dtu : ℚ) * P.DWT_TIME_UNITS }
  let s := { s with distance := s.tof * (SPEED_OF_LIGHT : ℚ) }
  let s := init_gate match_ s
  { s with tx_int_flag := false, rx_int_flag := false, er_int_flag := false,
           to_int_flag := false }

/-- Lines 229-311: what follows the second wait loop and `frame_seq_nb++`. -/
def init_after_final_wait (P : Platform) (e : InitEnv) (shared_key : Nat) (s : InitState) :
    InitState :=
  if s.rx_int_flag then
    let s := { s with rx_buffer := init_final_buffer e s.rx_buffer }
    if memcmp_eq s.rx_buffer rx_final_msg ALL_MSG_COMMON_LEN then
      init_final_accepted P e shared_key s
    else s
  else
    let s := s.emit .rxreset
    { s with to_int_flag := false, er_int_flag := false }

/-- Lines 184-207, state part: the poll timestamp is taken, the send time of the response
is programmed, the public key and the sequence number are written into `tx_resp_msg`, the
frame is handed to the radio and started.  (`sizeof(tx_resp_msg)` is 27.) -/
def init_send_response (e : InitEnv) (public_key : Nat) (s : InitState) : InitState :=
  let s := { s with poll_rx_ts := get_rx_timestamp_u64 e.poll_rx_stamp }
  let resp_tx_time :=
    u32 (u64 (s.poll_rx_ts + POLL_RX_TO_RESP_TX_DLY_UUS * UUS_TO_DWT_TIME) >>> 8)
  let s := s.emit (.setdelayedtrxtime resp_tx_time)
  let s := s.emit (.setrxaftertxdelay RESP_TX_TO_FINAL_RX_DLY_UUS)
  let s := s.emit (.setrxtimeout 0)
  let s := { s with tx_resp_msg := s.tx_resp_msg.set 12 public_key }
  let s := { s with tx_resp_msg := s.tx_resp_msg.set ALL_MSG_SN_IDX s.frame_seq_nb }
  let s := s.emit (.writetxdata 27 (tx_payload 27 s.tx_resp_msg))
  let s := s.emit (.writetxfctrl 27)
  s.emit (.starttx .tx_immediate_response_expected)

/-- Lines 211-222: the loop `while (!(tx_int_flag))` has been left (`tx_conf_cb` has set the
flag); the counter is incremented and printed, three flags are reset (`to_int_flag` is
not). -/
def init_tx_confirmed (s : InitState) : InitState :=
  let s := { s with tx_int_flag := true }
  let s := { s with tx_count := s.tx_count + 1 }
  let s := s.emit (.printf (.transmission s.tx_count))
  { s with tx_int_flag := false, rx_int_flag := false, er_int_flag := false }

/-- Lines 224-227: the flags when the second wait loop is left, then `frame_seq_nb++`. -/
def init_final_wait_left (e : InitEnv) (s : InitState) : InitState :=
  let s := { s with rx_int_flag := s.rx_int_flag || e.final_wait.rx_ok,
                    to_int_flag := s.to_int_flag || e.final_wait.rx_to,
                    er_int_flag := s.er_int_flag || e.final_wait.rx_err }
  { s with frame_seq_nb := u8 (s.frame_seq_nb + 1) }

/-- Lines 184-313: the block run when the poll has passed the prefix check.  The result is
`none` when one of the two wait loops of the block is never left. -/
def init_poll_accepted (P : Platform) (e : InitEnv) (p private_key public_key : Nat)
    (s : InitState) : Option InitState :=
  let g := s.rx_buffer.getD 23 0
  let shared_key := mod_pow g private_key p
  let s := init_send_response e public_key s
  -- `while (!(tx_int_flag)) {};`
  if !e.tx_conf then none else
  let s := init_tx_confirmed s
  -- `while (!(rx_int_flag || to_int_flag || er_int_flag)) {};`
  let s := init_final_wait_left e s
  if !(s.rx_int_flag || s.to_int_flag || s.er_int_flag) then none else
  some (init_after_final_wait P e shared_key s)

/-- Lines 163-315: the block `if (rx_int_flag) { ... }` after the first wait loop. -/
def init_after_poll_wait (P : Platform) (e : InitEnv) (p private_key public_key : Nat)
    (s : InitState) : Option InitState :=
  if s.rx_int_flag then
    let s := s.emit (.printf .poll_msg_r)
    let s := { s with rx_buffer := init_poll_buffer e s.rx_buffer }
    if memcmp_eq s.rx_buffer rx_poll_msg ALL_MSG_COMMON_LEN then
      init_poll_accepted P e p private_key public_key s
    else some s
  else some s

/-- Lines 318-328: the closing `if (to_int_flag || er_int_flag) { ... }`. -/
def init_cycle_end (s : InitState) : InitState :=
  if s.to_int_flag || s.er_int_flag then
    let s := s.emit .rxreset
    { s with to_int_flag := false, er_int_flag := false }
  else s

/-- Lines 139-160: pins configured, public key computed and printed, flags reset, receiver
enabled; then the flags when the first wait loop is left. -/
def init_entry (e : InitEnv) (public_key : Nat) (s : InitState) : InitState :=
  let s := s.emit (.cfg_output 14)
  let s := s.emit (.cfg_output 27)
  let s := s.emit (.printf (.public_key public_key))
  let s := { s with tx_int_flag := false, rx_int_flag := false, er_int_flag := false,
                    to_int_flag := false }
  let s := s.emit (.setrxtimeout 0)
  let s := s.emit .rxenable
  { s with rx_int_flag := s.rx_int_flag || e.poll_wait.rx_ok,
           to_int_flag := s.to_int_flag || e.poll_wait.rx_to,
           er_int_flag := s.er_int_flag || e.poll_wait.rx_err }

/-- Source function `ss_init_run`: one cycle of the initiator.  `none` means that the run
never returns (a wait loop is never left). -/
def ss_init_run (P : Platform) (e : InitEnv) (s : InitState) : Option InitState :=
  let p := 29
  let g := 5
  let private_key := e.rand % 85
  let public_key := mod_pow g private_key p
  let s := init_entry e public_key s
  -- `while (!(rx_int_flag || to_int_flag || er_int_flag)) {};`
  if !(s.rx_int_flag || s.to_int_flag || s.er_int_flag) then none else
  (init_after_poll_wait P e p private_key public_key s).map init_cycle_end

/-! ## The responder engine: `ss_resp_run` -/

/-- The three groups of bits of `SYS_STATUS` that `ss_resp_run` tests: `SYS_STATUS_RXFCG`,
any bit of `SYS_STATUS_ALL_RX_TO`, any bit of `SYS_STATUS_ALL_RX_ERR`. -/
structure Status where
  rxfcg : Bool
  rx_to : Bool
  rx_err : Bool
  deriving DecidableEq, Repr

/-- The static variables of `ss_resp_main.c` that `ss_resp_run` touches, the level of the
pin `LED3`, and the log of calls. -/
structure RespState where
  tx_poll_msg : List Nat
  tx_final_msg : List Nat
  rx_buffer : List Nat
  frame_seq_nb : Nat
  status_reg : Status
  poll_tx_ts : Nat
  resp_rx_ts : Nat
  final_tx_ts : Nat
  devID : Nat
  led3 : Bool
  log : List Action
  deriving DecidableEq, Repr

/-- Everything one run of `ss_resp_run` reads from outside. -/
structure RespEnv where
  /-- Value returned by `rand()`. -/
  rand : Nat
  /-- Value returned by `dwt_readdevid()`. -/
  devid : Nat
  /-- Whether the `dwt_starttx` of the poll returns `DWT_SUCCESS`. -/
  poll_starttx_ok : Bool
  /-- Status register when the wait loop is left. -/
  status : Status
  /-- Frame in the receiver at the read, checksum included. -/
  resp_frame : List Nat
  /-- Five bytes of `dwt_readtxtimestamp` (poll sent). -/
  poll_tx_stamp : List Nat
  /-- Five bytes of `dwt_readrxtimestamp` (response received). -/
  resp_rx_stamp : List Nat
  /-- Whether the second `dwt_starttx` of the final frame returns `DWT_SUCCESS` (the
  return value of the first is overwritten). -/
  final_starttx_ok : Bool
  /-- Whether `SYS_STATUS_TXFRS` is ever seen after the final frame was started. -/
  txfrs : Bool

/-- Append a call to the log. -/
def RespState.emit (s : RespState) (a : Action) : RespState :=
  { s with log := s.log ++ [a] }

/-- Lines 176-185 of `ss_resp_main.c`: `rx_buffer` when the response is checked.  The
frame is read only if `frame_len <= RX_BUFFER_LEN`. -/
def resp_buffer (P : Platform) (e : RespEnv) (rx_buffer : List Nat) : List Nat :=
  let frame_len := e.resp_frame.length
  let rx_buffer :=
    if frame_len ≤ P.RX_BUFFER_LEN then dwt_readrxdata rx_buffer e.resp_frame
    else rx_buffer
  rx_buffer.set ALL_MSG_SN_IDX 0

/-- Lines 194-221 of `ss_resp_main.c`, state part: timestamps, send time of the final
frame, its precomputed TX timestamp, the three timestamp fields, the key byte, the
sequence number; the frame is handed to the radio and started twice.
(`sizeof(tx_final_msg)` is 26.) -/
def resp_send_final (P : Platform) (e : RespEnv) (shared_key : Nat) (s : RespState) :
    RespState :=
  let s := { s with poll_tx_ts := get_tx_timestamp_u64 e.poll_tx_stamp }
  let s := { s with resp_rx_ts := get_rx_timestamp_u64 e.resp_rx_stamp }
  let final_tx_time :=
    u32 (u64 (s.resp_rx_ts + RESP_RX_TO_FINAL_TX_DLY_UUS * UUS_TO_DWT_TIME) >>> 8)
  let s := s.emit (.setdelayedtrxtime final_tx_time)
  let s := { s with final_tx_ts := u64 (u64 ((final_tx_time &&& 0xFFFFFFFE) <<< 8) +
                                          P.TX_ANT_DLY) }
  let s := { s with tx_final_msg :=
                      final_msg_set_ts s.tx_final_msg FINAL_MSG_POLL_TX_TS_IDX s.poll_tx_ts }
  let s := { s with tx_final_msg :=
                      final_msg_set_ts s.tx_final_msg FINAL_MSG_RESP_RX_TS_IDX s.resp_rx_ts }
  let s := { s with tx_final_msg :=
                      final_msg_set_ts s.tx_final_msg FINAL_MSG_FINAL_TX_TS_IDX s.final_tx_ts }
  let s := { s with tx_final_msg := s.tx_final_msg.set 23 shared_key }
  let s := { s with tx_final_msg := s.tx_final_msg.set ALL_MSG_SN_IDX s.frame_seq_nb }
  let s := s.emit (.writetxdata 26 (tx_payload 26 s.tx_final_msg))
  let s := s.emit (.writetxfctrl 26)
  let s := s.emit (.starttx .rx_delayed)
  s.emit (.starttx .rx_immediate)

/-- Lines 233-237: `SYS_STATUS_TXFRS` has been seen; it is cleared and the sequence number
is incremented. -/
def resp_final_sent (s : RespState) : RespState :=
  let s := s.emit (.write_status .txfrs)
  { s with frame_seq_nb := u8 (s.frame_seq_nb + 1) }

/-- Lines 191-238 of `ss_resp_main.c`: the block run when the response has passed the
prefix check.  `none` when the wait for `SYS_STATUS_TXFRS` is never left. -/
def resp_response_accepted (P : Platform) (e : RespEnv) (p private_key : Nat)
    (s : RespState) : Option RespState :=
  let g := s.rx_buffer.getD 12 0
  let shared_key := mod_pow g private_key p
  let s := resp_send_final P e shared_key s
  if e.final_starttx_ok then
    let s := { s.emit (.pin_clear LED3) with led3 := false }
    -- `while (!(dwt_read32bitreg(SYS_STATUS_ID) & SYS_STATUS_TXFRS)) {};`
    if !e.txfrs then none else
    some (resp_final_sent s)
  else some s

/-- Lines 153-241: the block `if (ret == DWT_SUCCESS) { ... }` after the poll was
started.  `none` when a wait loop of the block is never left. -/
def resp_after_poll_tx (P : Platform) (e : RespEnv) (p private_key : Nat) (s : RespState) :
    Option RespState :=
  -- the wait loop is left only with one of the three groups of bits set
  if !(e.status.rxfcg || e.status.rx_to || e.status.rx_err) then none else
  let s := { s with status_reg := e.status }
  let s := { s with frame_seq_nb := u8 (s.frame_seq_nb + 1) }
  if s.status_reg.rxfcg then
    let s := s.emit (.write_status .rxfcg_txfrs)
    let s := { s with rx_buffer := resp_buffer P e s.rx_buffer }
    if memcmp_eq s.rx_buffer rx_resp_msg ALL_MSG_COMMON_LEN then
      resp_response_accepted P e p private_key s
    else some s
  else some s

/-- Lines 134-149: the public key is written into the poll frame, `LED3` is set, the device
identifier is read, the poll is handed to the radio and started.
(`sizeof(tx_poll_msg)` is 26.) -/
def resp_entry (e : RespEnv) (public_key : Nat) (s : RespState) : RespState :=
  let s := { s with tx_poll_msg := s.tx_poll_msg.set 23 public_key }
  let s := s.emit (.cfg_output LED3)
  let s := { s.emit (.pin_set LED3) with led3 := true }
  let s := { s.emit .readdevid with devID := e.devid }
  let s := s.emit (.writetxdata 26 (tx_payload 26 s.tx_poll_msg))
  let s := s.emit (.writetxfctrl 26)
  s.emit (.starttx .tx_immediate_response_expected)

/-- Lines 243-251: the `else` of `if (ret == DWT_SUCCESS)`. -/
def resp_starttx_failed (s : RespState) : RespState :=
  let s := s.emit (.write_status .all_rx_err)
  s.emit .rxreset

/-- Source function `ss_resp_run`: one cycle of the responder.  `none` means that the run
never returns. -/
def ss_resp_run (P : Platform) (e : RespEnv) (s : RespState) : Option RespState :=
  let p := 29
  let g := 5
  let private_key := e.rand % 100
  let public_key := mod_pow g private_key p
  let s := resp_entry e public_key s
  let r : Option RespState :=
    if e.poll_starttx_ok then resp_after_poll_tx P e p private_key s
    else some (resp_starttx_failed s)
  r.map (fun s => s.emit (.deca_sleep RNG_DELAY_MS))

/-- Initial values of the statics of `ss_init_main.c`, pins inactive, empty log. -/
def InitState.initial : InitState :=
  { rx_buffer := List.replicate 26 0, tx_resp_msg := KeylessEntry.tx_resp_msg, frame_seq_nb := 0,
    tof := 0, distance := 0, tx_int_flag := false, rx_int_flag := false,
    to_int_flag := false, er_int_flag := false, tx_count := 0, poll_rx_ts := 0,
    resp_tx_ts := 0, final_rx_ts := 0, pin14 := false, pin27 := false, log := [] }

/-- Initial values of the statics of `ss_resp_main.c`, empty log. -/
def RespState.initial : RespState :=
  { tx_poll_msg := KeylessEntry.tx_poll_msg, tx_final_msg := KeylessEntry.tx_final_msg,
    rx_buffer := List.replicate 26 0, frame_seq_nb := 0,
    status_reg := { rxfcg := false, rx_to := false, rx_err := false },
    poll_tx_ts := 0, resp_rx_ts := 0, final_tx_ts := 0, devID := 0, led3 := false,
    log := [] }

/-! ## Observations of one initiator cycle

The vocabulary of the statements below, built from the blocks of `ss_init_run`. -/

/-- The poll wait ended with a good frame and the frame passed the prefix check. -/
def poll_accepted (e : InitEnv) (s : InitState) : Prop :=
  e.poll_wait.rx_ok = true ∧
    memcmp_eq (init_poll_buffer e s.rx_buffer) rx_poll_msg ALL_MSG_COMMON_LEN = true

instance (e : InitEnv) (s : InitState) : Decidable (poll_accepted e s) := by
  unfold poll_accepted; infer_instance

/-- Content of `rx_buffer` when the final frame is checked, in a cycle that gets there. -/
def cycle_final_buffer (e : InitEnv) (s : InitState) : List Nat :=
  init_final_buffer e (init_poll_buffer e s.rx_buffer)

/-- A valid final frame was received: the poll was accepted, the response was confirmed as
sent, the second wait ended with a good frame and that frame passed the prefix check. -/
def final_accepted (e : InitEnv) (s : InitState) : Prop :=
  poll_accepted e s ∧ e.tx_conf = true ∧ e.final_wait.rx_ok = true ∧
    memcmp_eq (cycle_final_buffer e s) rx_final_msg ALL_MSG_COMMON_LEN = true

instance (e : InitEnv) (s : InitState) : Decidable (final_accepted e s) := by
  unfold final_accepted; infer_instance

/-- The local `shared_key` of the cycle (line 196). -/
def cycle_shared_key (e : InitEnv) (s : InitState) : Nat :=
  mod_pow ((init_poll_buffer e s.rx_buffer).getD 23 0) (e.rand % 85) 29

/-- The local `ans` of the cycle (line 258): byte 23 of the final frame as read. -/
def cycle_ans (e : InitEnv) (s : InitState) : Nat :=
  (cycle_final_buffer e s).getD 23 0

/-- The differences `Ra`, `Rb`, `Da`, `Db` of the cycle. -/
def cycle_round_trips (e : InitEnv) (s : InitState) : RoundTrips :=
  init_round_trips (cycle_final_buffer e s) (get_rx_timestamp_u64 e.poll_rx_stamp)
    (get_tx_timestamp_u64 e.resp_tx_stamp) (get_rx_timestamp_u64 e.final_rx_stamp)

/-- The value stored in `distance` by the cycle (lines 277-282). -/
def cycle_distance (P : Platform) (e : InitEnv) (s : InitState) : ℚ :=
  let r := cycle_round_trips e s
  (estimate_tof_dtu P r.Ra r.Rb r.Da r.Db : ℚ) * P.DWT_TIME_UNITS * (SPEED_OF_LIGHT : ℚ)

/-- The calls appended to a log between two states. -/
def new_actions (before after : List Action) : List Action :=
  after.drop before.length

/-- The verified-proximity output is asserted: pins 14 and 27 are driven to the active
state. -/
def verified_asserted (l : List Action) : Prop :=
  Action.pin_write 14 true ∈ l ∧ Action.pin_write 27 true ∈ l

instance (l : List Action) : Decidable (verified_asserted l) := by
  unfold verified_asserted; infer_instance

/-- Some call of the list writes one of the two output pins. -/
def writes_output (l : List Action) : Prop :=
  ∃ a ∈ l, a = Action.pin_write 14 true ∨ a = Action.pin_write 14 false ∨
    a = Action.pin_write 27 true ∨ a = Action.pin_write 27 false

instance (l : List Action) : Decidable (writes_output l) := by
  unfold writes_output; infer_instance

/-! ## Observations of one responder cycle -/

/-- A valid response was received: the poll was started, the wait ended with a good frame
and the frame passed the prefix check. -/
def response_accepted (P : Platform) (e : RespEnv) (s : RespState) : Prop :=
  e.poll_starttx_ok = true ∧ e.status.rxfcg = true ∧
    memcmp_eq (resp_buffer P e s.rx_buffer) rx_resp_msg ALL_MSG_COMMON_LEN = true

instance (P : Platform) (e : RespEnv) (s : RespState) : Decidable (response_accepted P e s) := by
  unfold response_accepted; infer_instance

/-- The public key of the responder cycle (line 137). -/
def resp_public_key (e : RespEnv) : Nat := mod_pow 5 (e.rand % 100) 29

/-- The local `shared_key` of the responder cycle (line 198). -/
def resp_shared_key (P : Platform) (e : RespEnv) (s : RespState) : Nat :=
  mod_pow ((resp_buffer P e s.rx_buffer).getD 12 0) (e.rand % 100) 29

/-- The payloads handed to the radio by the calls of a log, in order. -/
def sent_payloads : List Action → List (List Nat)
  | [] => []
  | .writetxdata _ payload :: l => payload :: sent_payloads l
  | _ :: l => sent_payloads l

/-! ## Auxiliary definitions for the block lemmas -/

/-- The calls made by the gate of lines 284-294. -/
def gate_calls (match_ : Bool) (distance : ℚ) : List Action :=
  if match_ then
    if distance < 1 then
      [.pin_write 14 true, .pin_write 27 true, .printf (.distance distance)]
    else [.pin_write 14 false, .pin_write 27 false]
  else []

/-- The value stored in `distance` by the block of lines 248-299, as a function of the
content of `rx_buffer` and of `poll_rx_ts` when the block is entered. -/
def block_distance (P : Platform) (e : InitEnv) (rx_buffer : List Nat) (poll_rx_ts : Nat) :
    ℚ :=
  let r := init_round_trips rx_buffer poll_rx_ts (get_tx_timestamp_u64 e.resp_tx_stamp)
    (get_rx_timestamp_u64 e.final_rx_stamp)
  (estimate_tof_dtu P r.Ra r.Rb r.Da r.Db : ℚ) * P.DWT_TIME_UNITS * (SPEED_OF_LIGHT : ℚ)

/-- The calls of a cycle up to the acceptance of the final frame. -/
def accepted_calls (e : InitEnv) (s : InitState) : List Action :=
  [.cfg_output 14, .cfg_output 27, .printf (.public_key (mod_pow 5 (e.rand % 85) 29)),
   .setrxtimeout 0, .rxenable, .printf .poll_msg_r,
   .setdelayedtrxtime (u32 (u64 (get_rx_timestamp_u64 e.poll_rx_stamp +
      POLL_RX_TO_RESP_TX_DLY_UUS * UUS_TO_DWT_TIME) >>> 8)),
   .setrxaftertxdelay RESP_TX_TO_FINAL_RX_DLY_UUS,
   .setrxtimeout 0,
   .writetxdata 27 (tx_payload 27
      ((s.tx_resp_msg.set 12 (mod_pow 5 (e.rand % 85) 29)).set ALL_MSG_SN_IDX s.frame_seq_nb)),
   .writetxfctrl 27,
   .starttx .tx_immediate_response_expected,
   .printf (.transmission (s.tx_count + 1))]

/-- The value of `final_tx_time` in `resp_send_final` (line 201). -/
def resp_final_tx_time (e : RespEnv) : Nat :=
  u32 (u64 (get_rx_timestamp_u64 e.resp_rx_stamp +
    RESP_RX_TO_FINAL_TX_DLY_UUS * UUS_TO_DWT_TIME) >>> 8)

/-- The value of `final_tx_ts` in `resp_send_final` (line 205). -/
def resp_final_tx_ts (P : Platform) (e : RespEnv) : Nat :=
  u64 (u64 ((resp_final_tx_time e &&& 0xFFFFFFFE) <<< 8) + P.TX_ANT_DLY)

/-- The array `tx_final_msg` after lines 209-216, from its content `msg` before. -/
def resp_final_msg (P : Platform) (e : RespEnv) (shared_key : Nat) (msg : List Nat)
    (frame_seq_nb : Nat) : List Nat :=
  ((final_msg_set_ts
      (final_msg_set_ts
        (final_msg_set_ts msg FINAL_MSG_POLL_TX_TS_IDX (get_tx_timestamp_u64 e.poll_tx_stamp))
        FINAL_MSG_RESP_RX_TS_IDX (get_rx_timestamp_u64 e.resp_rx_stamp))
      FINAL_MSG_FINAL_TX_TS_IDX (resp_final_tx_ts P e)).set 23 shared_key).set
    ALL_MSG_SN_IDX frame_seq_nb

/-- The calls of a responder cycle up to the start of the poll. -/
def resp_poll_calls (e : RespEnv) (s : RespState) : List Action :=
  [.cfg_output LED3, .pin_set LED3, .readdevid,
   .writetxdata 26 (tx_payload 26 (s.tx_poll_msg.set 23 (resp_public_key e))),
   .writetxfctrl 26, .starttx .tx_immediate_response_expected]

/-- The array `tx_final_msg` after a responder cycle that accepts the response. -/
def resp_cycle_final_msg (P : Platform) (e : RespEnv) (s : RespState) : List Nat :=
  resp_final_msg P e (resp_shared_key P e s) s.tx_final_msg (u8 (s.frame_seq_nb + 1))

/-- The calls of a responder cycle from the acceptance of the response to the start of the
final frame. -/
def resp_final_calls (P : Platform) (e : RespEnv) (s : RespState) : List Action :=
  [.write_status .rxfcg_txfrs, .setdelayedtrxtime (resp_final_tx_time e),
   .writetxdata 26 (tx_payload 26 (resp_cycle_final_msg P e s)),
   .writetxfctrl 26, .starttx .rx_delayed, .starttx .rx_immediate]

/-! ## A concrete exchange

Private value 7 for the initiator, 11 for the responder; one-way time of flight of 10
device time units; reply delays of 78643200 (initiator) and 262160372 (responder) units. -/

/-- Header constants of the demonstration platform. -/
def demo_platform : Platform :=
  { DWT_TIME_UNITS := 1 / 63897600000, TX_ANT_DLY := 16456, RX_BUFFER_LEN := 1024,
    int64_of_nan := 0 }

/-- What the responder reads in the demonstration exchange. -/
def demo_resp_env : RespEnv :=
  { rand := 11, devid := 0, poll_starttx_ok := true,
    status := { rxfcg := true, rx_to := false, rx_err := false },
    resp_frame := [65, 136, 0, 202, 222, 86, 69, 87, 65, 16, 2, 0, 28, 0, 0, 0, 0, 0, 0, 0,
      0, 0, 0, 0, 0, 170, 187],
    poll_tx_stamp := [64, 66, 15, 0, 0], resp_rx_stamp := [84, 66, 191, 4, 0],
    final_starttx_ok := true, txfrs := true }

/-- What the initiator reads in the demonstration exchange. -/
def demo_init_env : InitEnv :=
  { rand := 7, poll_wait := { rx_ok := true, rx_to := false, rx_err := false },
    poll_frame := [65, 136, 0, 222, 202, 87, 65, 86, 69, 33, 0, 0, 0, 0, 0, 0, 0, 0, 0, 0,
      0, 0, 0, 13, 90, 195],
    poll_rx_stamp := [64, 75, 76, 0, 0], tx_conf := true,
    final_wait := { rx_ok := true, rx_to := false, rx_err := false },
    final_frame := [65, 136, 1, 202, 222, 87, 65, 86, 69, 35, 64, 66, 15, 0, 84, 66, 191, 4,
      72, 130, 95, 20, 0, 28, 17, 34],
    resp_tx_stamp := [64, 75, 252, 4, 0], final_rx_stamp := [72, 139, 156, 20, 0] }

/-- The demonstration exchange with a final frame whose authentication byte is wrong. -/
def demo_mismatch_env : InitEnv :=
  { demo_init_env with
    final_frame := [65, 136, 1, 202, 222, 87, 65, 86, 69, 35, 64, 66, 15, 0, 84, 66, 191, 4,
      72, 130, 95, 20, 0, 27, 17, 34] }

/-- Initiator state left by an earlier verified cycle: both pins active. -/
def demo_unlocked_state : InitState :=
  { InitState.initial with pin14 := true, pin27 := true, distance := 99900849 / 2129920000 }

/-- The demonstration exchange with degenerate timestamps: the three timestamps of the
final frame are equal, and so are the three local ones. -/
def demo_degenerate_env : InitEnv :=
  { demo_init_env with
    final_frame := [65, 136, 1, 202, 222, 87, 65, 86, 69, 35, 0, 0, 0, 0, 0, 0, 0, 0,
      0, 0, 0, 0, 0, 28, 17, 34],
    poll_rx_stamp := [64, 75, 76, 0, 0], resp_tx_stamp := [64, 75, 76, 0, 0],
    final_rx_stamp := [64, 75, 76, 0, 0] }

/-! ## Vocabulary for the prefix checks -/

/-- The positions of the common header other than the sequence number. -/
def header_positions : List Nat := [0, 1, 3, 4, 5, 6, 7, 8, 9]

/-- Bytes 0, 1 and 3..9 of the frame equal those of the template. -/
def header_matches (frame tmpl : List Nat) : Prop :=
  ∀ i ∈ header_positions, frame[i]? = tmpl[i]?

instance (frame tmpl : List Nat) : Decidable (header_matches frame tmpl) := by
  unfold header_matches; infer_instance

/-- Verdict of the poll check of `ss_init_run` (line 181) on a received frame, `rx_buffer`
holding `buf` before the read. -/
def poll_verdict (e : InitEnv) (buf frame : List Nat) : Bool :=
  memcmp_eq (init_poll_buffer { e with poll_frame := frame } buf) rx_poll_msg
    ALL_MSG_COMMON_LEN

/-- Verdict of the final check of `ss_init_run` (line 244) on a received frame. -/
def final_verdict (e : InitEnv) (buf frame : List Nat) : Bool :=
  memcmp_eq (init_final_buffer { e with final_frame := frame } buf) rx_final_msg
    ALL_MSG_COMMON_LEN

/-- Verdict of the response check of `ss_resp_run` (line 187) on a received frame. -/
def resp_verdict (P : Platform) (e : RespEnv) (buf frame : List Nat) : Bool :=
  memcmp_eq (resp_buffer P { e with resp_frame := frame } buf) rx_resp_msg
    ALL_MSG_COMMON_LEN

/-- What the claim on the prefix check says of a verdict, for the frames whose length
satisfies `len_ok`: acceptance is equality with the template on bytes 0, 1, 3..9; changing
one of these bytes of an accepted frame gives a rejected frame; changing byte 2 or a byte
from 10 on leaves the verdict as it is. -/
def header_check_exact (verdict : List Nat → Bool) (tmpl : List Nat) (len_ok : Nat → Prop) :
    Prop :=
  ∀ frame : List Nat, 10 ≤ frame.length → len_ok frame.length →
    (verdict frame = true ↔ header_matches frame tmpl) ∧
    (∀ i ∈ header_positions, ∀ v : Nat, verdict frame = true → frame[i]? ≠ some v →
      verdict (frame.set i v) = false) ∧
    (∀ i v : Nat, i = 2 ∨ 10 ≤ i → verdict (frame.set i v) = verdict frame)

/-- A final frame of 21 bytes that carries the header of the template. -/
def demo_short_final : List Nat :=
  [65, 136, 1, 202, 222, 87, 65, 86, 69, 35, 64, 66, 15, 0, 84, 66, 191, 4, 72, 130, 95]

/-! ## Shape of the states

The arrays keep their declared sizes, and `tx_final_msg` keeps the header of its initial
value: no statement of the sources writes bytes 0, 1, 3..9 of it. -/

/-- Declared sizes of the arrays of the initiator. -/
def InitState.well_formed (s : InitState) : Prop :=
  s.rx_buffer.length = 26 ∧ s.tx_resp_msg.length = 27

instance (s : InitState) : Decidable s.well_formed := by
  unfold InitState.well_formed; infer_instance

/-- Declared sizes of the arrays of the responder, and the header of `tx_final_msg`. -/
def RespState.well_formed (s : RespState) : Prop :=
  s.rx_buffer.length = 26 ∧ s.tx_poll_msg.length = 26 ∧ s.tx_final_msg.length = 26 ∧
    header_matches s.tx_final_msg rx_final_msg

instance (s : RespState) : Decidable s.well_formed := by
  unfold RespState.well_formed; infer_instance

/-! ## Vocabulary for the timestamp arithmetic -/

/-- Difference of two 40-bit timestamps of one device, modulo `2 ^ 40`. -/
def diff40 (t2 t1 : Nat) : Nat := (t2 + 2 ^ 40 - t1) % 2 ^ 40

/-- Line 201 of `ss_resp_main.c` as a function of the response-RX timestamp:
`final_tx_time = (resp_rx_ts + (RESP_RX_TO_FINAL_TX_DLY_UUS * UUS_TO_DWT_TIME)) >> 8`,
stored in a `uint32`. -/
def final_tx_time_of (resp_rx_ts : Nat) : Nat :=
  u32 (u64 (resp_rx_ts + RESP_RX_TO_FINAL_TX_DLY_UUS * UUS_TO_DWT_TIME) >>> 8)

/-- Line 205 of `ss_resp_main.c` as a function of the response-RX timestamp:
`final_tx_ts = (((uint64)(final_tx_time & 0xFFFFFFFEUL)) << 8) + TX_ANT_DLY`. -/
def final_tx_ts_of (P : Platform) (resp_rx_ts : Nat) : Nat :=
  u64 (u64 ((final_tx_time_of resp_rx_ts &&& 0xFFFFFFFE) <<< 8) + P.TX_ANT_DLY)

/-- The demonstration exchange with a poll whose public byte is 30 (congruent to 1 modulo
29) and a final frame whose byte 23 is 1. -/
def demo_weak_key_env : InitEnv :=
  { demo_init_env with
    poll_frame := [65, 136, 0, 222, 202, 87, 65, 86, 69, 33, 0, 0, 0, 0, 0, 0, 0, 0, 0, 0,
      0, 0, 0, 30, 90, 195],
    final_frame := [65, 136, 1, 202, 222, 87, 65, 86, 69, 35, 64, 66, 15, 0, 84, 66, 191, 4,
      72, 130, 95, 20, 0, 1, 17, 34] }

/-! ## Vocabulary for the failed waits -/

/-- The first wait of the initiator ends with the timeout or the error flag set and no
good frame. -/
def poll_wait_failed (e : InitEnv) : Prop :=
  e.poll_wait.rx_ok = false ∧ (e.poll_wait.rx_to || e.poll_wait.rx_err) = true

instance (e : InitEnv) : Decidable (poll_wait_failed e) := by
  unfold poll_wait_failed; infer_instance

/-- The second wait of the initiator is reached and ends with the timeout or the error
flag set and no good frame.  The timeout flag may have been raised during the first wait
already: it is not reset in between. -/
def final_wait_failed (e : InitEnv) (s : InitState) : Prop :=
  poll_accepted e s ∧ e.tx_conf = true ∧ e.final_wait.rx_ok = false ∧
    ((e.poll_wait.rx_to || e.final_wait.rx_to) || e.final_wait.rx_err) = true

instance (e : InitEnv) (s : InitState) : Decidable (final_wait_failed e s) := by
  unfold final_wait_failed; infer_instance

/-- The wait of the responder ends with a receive-timeout or receive-error status and no
good frame. -/
def resp_wait_failed (e : RespEnv) : Prop :=
  e.poll_starttx_ok = true ∧ e.status.rxfcg = false ∧
    (e.status.rx_to || e.status.rx_err) = true

instance (e : RespEnv) : Decidable (resp_wait_failed e) := by
  unfold resp_wait_failed; infer_instance

/-- The demonstration exchange in which the final frame never arrives: the second wait of
the initiator ends with a timeout. -/
def demo_timeout_env : InitEnv :=
  { demo_init_env with final_wait := { rx_ok := false, rx_to := true, rx_err := false } }

/-- The demonstration exchange in which the response never arrives: the wait of the
responder ends with a timeout status. -/
def demo_resp_timeout_env : RespEnv :=
  { demo_resp_env with status := { rxfcg := false, rx_to := true, rx_err := false } }

/-- The arrays of the initiator have their declared sizes and `tx_resp_msg` carries the
header of its initial value. -/
def InitState.templates_intact (s : InitState) : Prop :=
  s.well_formed ∧ header_matches s.tx_resp_msg rx_resp_msg

instance (s : InitState) : Decidable s.templates_intact := by
  unfold InitState.templates_intact; infer_instance

/-- The arrays of the responder have their declared sizes and `tx_poll_msg` and
`tx_final_msg` carry the headers of their initial values. -/
def RespState.templates_intact (s : RespState) : Prop :=
  s.well_formed ∧ header_matches s.tx_poll_msg rx_poll_msg

instance (s : RespState) : Decidable s.templates_intact := by
  unfold RespState.templates_intact; infer_instance

/-- The poll payload of a responder cycle. -/
def resp_poll_payload (e : RespEnv) (s : RespState) : List Nat :=
  tx_payload 26 (s.tx_poll_msg.set 23 (resp_public_key e))

/-- The final payload of a responder cycle that accepts the response. -/
def resp_final_payload (P : Platform) (e : RespEnv) (s : RespState) : List Nat :=
  tx_payload 26 (resp_cycle_final_msg P e s)

/-- The response payload of an initiator cycle that accepts the poll. -/
def init_resp_payload (e : InitEnv) (s : InitState) : List Nat :=
  tx_payload 27 ((s.tx_resp_msg.set 12 (mod_pow 5 (e.rand % 85) 29)).set ALL_MSG_SN_IDX
    s.frame_seq_nb)

/-! # Theorems -/

/-! ### Lemmas on `mod_pow` -/

theorem u8_le (x : Nat) : u8 x ≤ x := Nat.mod_le x 256

theorem u8_of_lt {x : Nat} (h : x < 256) : u8 x = x := Nat.mod_eq_of_lt h

theorem u32_of_lt {x : Nat} (h : x < 4294967296) : u32 x = x := Nat.mod_eq_of_lt h

theorem mod_pow_loop_zero (result base mod : Nat) :
    mod_pow_loop result base 0 mod = result := by
  rw [mod_pow_loop]; simp

theorem mod_pow_loop_pos (result base exp mod : Nat) (h : 0 < exp) :
    mod_pow_loop result base exp mod =
      mod_pow_loop (if exp % 2 = 1 then u8 (u32 (result * base) % mod) else result)
        (u32 (base * base) % mod) (exp / 2) mod := by
  rw [mod_pow_loop]; simp [h]

/-- The loop keeps `result` below the modulus. -/
theorem mod_pow_loop_lt (mod : Nat) (hm : 1 < mod) :
    ∀ (exp result base : Nat), result < mod → mod_pow_loop result base exp mod < mod := by
  intro exp
  induction exp using Nat.strong_induction_on with
  | _ exp ih =>
    intro result base hr
    rcases Nat.eq_zero_or_pos exp with h0 | hpos
    · subst h0; rw [mod_pow_loop_zero]; exact hr
    · rw [mod_pow_loop_pos _ _ _ _ hpos]
      apply ih (exp / 2) (Nat.div_lt_self hpos (by decide))
      split
      · exact lt_of_le_of_lt (u8_le _) (Nat.mod_lt _ (by omega))
      · exact hr

theorem mod_pow_odd_step (r b m k : Nat) :
    (r * b % m) * (b * b % m) ^ k % m = r * b ^ (2 * k + 1) % m := by
  have h : r * b ^ (2 * k + 1) = (r * b) * (b * b) ^ k := by
    rw [pow_succ, pow_mul, pow_two]; ring
  rw [h, Nat.mul_mod (r * b), Nat.pow_mod (b * b)]
  conv_lhs => rw [Nat.mul_mod, Nat.mod_mod]

theorem mod_pow_even_step (r b m k : Nat) :
    r * (b * b % m) ^ k % m = r * b ^ (2 * k) % m := by
  have h : r * b ^ (2 * k) = r * (b * b) ^ k := by
    rw [pow_mul, pow_two]
  rw [h, Nat.mul_mod r ((b * b) ^ k), Nat.pow_mod (b * b)]
  conv_lhs => rw [Nat.mul_mod]

/-- With a modulus of at most 256 no product wraps and no reduced value is cut by the
8-bit result: the loop is square-and-multiply. -/
theorem mod_pow_loop_eq (mod : Nat) (hm : 0 < mod) (hm256 : mod ≤ 256) :
    ∀ (exp result base : Nat), result < mod → base < mod →
      mod_pow_loop result base exp mod = (result * base ^ exp) % mod := by
  intro exp
  induction exp using Nat.strong_induction_on with
  | _ exp ih =>
    intro result base hr hb
    rcases Nat.eq_zero_or_pos exp with h0 | hpos
    · subst h0; rw [mod_pow_loop_zero]; simp [Nat.mod_eq_of_lt hr]
    · rw [mod_pow_loop_pos _ _ _ _ hpos]
      have hbb : base * base < 4294967296 := by nlinarith
      have hrb : result * base < 4294967296 := by nlinarith
      have hb2 : u32 (base * base) % mod < mod := Nat.mod_lt _ hm
      rw [u32_of_lt hbb] at hb2 ⊢
      rw [u32_of_lt hrb]
      have hred : u8 (result * base % mod) = result * base % mod :=
        u8_of_lt (lt_of_lt_of_le (Nat.mod_lt _ hm) hm256)
      rw [hred]
      by_cases hodd : exp % 2 = 1
      · rw [if_pos hodd, ih (exp / 2) (Nat.div_lt_self hpos (by decide)) _ _
          (Nat.mod_lt _ hm) hb2, mod_pow_odd_step]
        congr 3; omega
      · rw [if_neg hodd, ih (exp / 2) (Nat.div_lt_self hpos (by decide)) _ _ hr hb2,
          mod_pow_even_step]
        congr 3; omega

/-- For a modulus `m` with `1 < m ≤ 256`, `mod_pow` is modular exponentiation. -/
theorem mod_pow_eq_pow_mod (base exp mod : Nat) (hm : 1 < mod) (hm256 : mod ≤ 256) :
    mod_pow base exp mod = base ^ exp % mod := by
  unfold mod_pow
  rw [mod_pow_loop_eq mod (by omega) hm256 exp 1 (base % mod) hm (Nat.mod_lt _ (by omega))]
  rw [one_mul, ← Nat.pow_mod]

/-- Exponentiation modulo 29 in two steps does not depend on the order of the steps. -/
theorem mod_pow_symm (g a b : Nat) :
    mod_pow (mod_pow g b 29) a 29 = mod_pow (mod_pow g a 29) b 29 := by
  simp only [mod_pow_eq_pow_mod _ _ 29 (by decide) (by decide)]
  rw [← Nat.pow_mod, ← Nat.pow_mod, ← pow_mul, ← pow_mul, mul_comm]

/-! ## Claims on `mod_pow` -/

/-- C2. Key-agreement symmetry: for all private values `a` and `b` (in particular all 32-bit
unsigned ones), with `A = mod_pow(5, a, 29)` and `B = mod_pow(5, b, 29)`,
`mod_pow(B, a, 29) = mod_pow(A, b, 29)`. -/
theorem mod_pow_key_agreement (a b : Nat) :
    mod_pow (mod_pow 5 b 29) a 29 = mod_pow (mod_pow 5 a 29) b 29 :=
  mod_pow_symm 5 a b

/-- C3 (failing input). With modulus 1000 the 8-bit result cuts the reduced value:
`mod_pow(2, 8, 1000)` returns 0, while `2 ^ 8 mod 1000` is 256. -/
theorem mod_pow_two_eight_thousand :
    mod_pow 2 8 1000 = 0 ∧ 2 ^ 8 % 1000 = 256 := by
  constructor
  · simp [mod_pow, mod_pow_loop, u8, u32]
  · decide

/-- C4. For every base, every exponent and every modulus `m > 1`, the value returned by
`mod_pow(base, exponent, m)` is strictly less than `m`. -/
theorem mod_pow_lt (base exp m : Nat) (hm : 1 < m) : mod_pow base exp m < m :=
  mod_pow_loop_lt m hm exp 1 (base % m) hm

theorem mod_pow_lt_witness : 1 < 29 ∧ mod_pow 5 3 29 < 29 :=
  ⟨by decide, mod_pow_lt 5 3 29 (by decide)⟩

/-- C5. For every base and every modulus `m > 1`, `mod_pow(base, 0, m) = 1`. -/
theorem mod_pow_exp_zero (base m : Nat) (_hm : 1 < m) : mod_pow base 0 m = 1 :=
  mod_pow_loop_zero 1 (base % m) m

theorem mod_pow_exp_zero_witness : 1 < 29 ∧ mod_pow 5 0 29 = 1 :=
  ⟨by decide, mod_pow_exp_zero 5 29 (by decide)⟩

/-! ## Claims on the estimator -/

theorem trunc_int64_natCast (n : Nat) : trunc_int64 (n : ℚ) = n := by
  unfold trunc_int64
  rw [if_pos (by positivity)]
  exact_mod_cast Int.floor_natCast (α := ℚ) n

/-- On the symmetric model the estimator returns the time of flight. -/
theorem estimate_tof_dtu_symmetric (P : Platform) (t Da Db : Nat)
    (hpos : 0 < 2 * t + Da + Db) :
    estimate_tof_dtu P ((2 * t + Db : Nat) : ℚ) ((2 * t + Da : Nat) : ℚ) (Da : ℚ) (Db : ℚ)
      = (t : Int) := by
  have hq : (0 : ℚ) < 2 * (t : ℚ) + Da + Db := by exact_mod_cast hpos
  unfold estimate_tof_dtu
  push_cast
  have hden : (2 * (t : ℚ) + Db + (2 * t + Da) + Da + Db) ≠ 0 := by
    have : (2 * (t : ℚ) + Db + (2 * t + Da) + Da + Db) = 2 * (2 * (t : ℚ) + Da + Db) := by ring
    rw [this]; positivity
  rw [if_neg hden]
  have hval : ((2 * (t : ℚ) + Db) * (2 * t + Da) - Da * Db) /
      (2 * (t : ℚ) + Db + (2 * t + Da) + Da + Db) = (t : ℚ) := by
    rw [div_eq_iff hden]; ring
  rw [hval]
  exact trunc_int64_natCast t

theorem init_gate_eq (m : Bool) (s : InitState) :
    init_gate m s =
      { s with pin14 := if m then decide (s.distance < 1) else s.pin14,
               pin27 := if m then decide (s.distance < 1) else s.pin27,
               log := s.log ++ gate_calls m s.distance } := by
  unfold init_gate gate_calls
  cases m
  · simp
  · by_cases h : s.distance < 1
    · simp [h, InitState.emit]
    · simp [h, InitState.emit]

theorem init_final_accepted_eq (P : Platform) (e : InitEnv) (k : Nat) (s : InitState) :
    init_final_accepted P e k s =
      { s with
        resp_tx_ts := get_tx_timestamp_u64 e.resp_tx_stamp,
        final_rx_ts := get_rx_timestamp_u64 e.final_rx_stamp,
        tof := block_distance P e s.rx_buffer s.poll_rx_ts / (SPEED_OF_LIGHT : ℚ),
        distance := block_distance P e s.rx_buffer s.poll_rx_ts,
        pin14 := if s.rx_buffer.getD 23 0 = k
                 then decide (block_distance P e s.rx_buffer s.poll_rx_ts < 1) else s.pin14,
        pin27 := if s.rx_buffer.getD 23 0 = k
                 then decide (block_distance P e s.rx_buffer s.poll_rx_ts < 1) else s.pin27,
        log := s.log ++ ([.printf (.ans (s.rx_buffer.getD 23 0)), .printf (.shared_key k),
                 .printf (.match_ (decide (s.rx_buffer.getD 23 0 = k)))] ++
                 gate_calls (decide (s.rx_buffer.getD 23 0 = k))
                   (block_distance P e s.rx_buffer s.poll_rx_ts)),
        tx_int_flag := false, rx_int_flag := false, er_int_flag := false,
        to_int_flag := false } := by
  unfold init_final_accepted
  simp only [init_gate_eq, InitState.emit, block_distance]
  have hc : ((SPEED_OF_LIGHT : Nat) : ℚ) ≠ 0 := by simp [SPEED_OF_LIGHT]
  simp [mul_div_assoc, hc]

theorem init_after_final_wait_eq (P : Platform) (e : InitEnv) (k : Nat) (s : InitState) :
    init_after_final_wait P e k s =
      if s.rx_int_flag = true then
        if memcmp_eq (init_final_buffer e s.rx_buffer) rx_final_msg ALL_MSG_COMMON_LEN = true
        then init_final_accepted P e k { s with rx_buffer := init_final_buffer e s.rx_buffer }
        else { s with rx_buffer := init_final_buffer e s.rx_buffer }
      else { s with to_int_flag := false, er_int_flag := false,
                    log := s.log ++ [.rxreset] } := by
  unfold init_after_final_wait
  rfl

theorem init_send_response_eq (e : InitEnv) (public_key : Nat) (s : InitState) :
    init_send_response e public_key s =
      { s with
        poll_rx_ts := get_rx_timestamp_u64 e.poll_rx_stamp,
        tx_resp_msg := (s.tx_resp_msg.set 12 public_key).set ALL_MSG_SN_IDX s.frame_seq_nb,
        log := s.log ++
          [.setdelayedtrxtime (u32 (u64 (get_rx_timestamp_u64 e.poll_rx_stamp +
              POLL_RX_TO_RESP_TX_DLY_UUS * UUS_TO_DWT_TIME) >>> 8)),
           .setrxaftertxdelay RESP_TX_TO_FINAL_RX_DLY_UUS,
           .setrxtimeout 0,
           .writetxdata 27 (tx_payload 27
              ((s.tx_resp_msg.set 12 public_key).set ALL_MSG_SN_IDX s.frame_seq_nb)),
           .writetxfctrl 27,
           .starttx .tx_immediate_response_expected] } := by
  unfold init_send_response InitState.emit
  simp only [List.append_assoc, List.singleton_append, List.cons_append, List.nil_append]

theorem init_tx_confirmed_eq (s : InitState) :
    init_tx_confirmed s =
      { s with tx_count := s.tx_count + 1, tx_int_flag := false, rx_int_flag := false,
               er_int_flag := false,
               log := s.log ++ [.printf (.transmission (s.tx_count + 1))] } := by
  unfold init_tx_confirmed InitState.emit
  rfl

theorem init_final_wait_left_eq (e : InitEnv) (s : InitState) :
    init_final_wait_left e s =
      { s with rx_int_flag := s.rx_int_flag || e.final_wait.rx_ok,
               to_int_flag := s.to_int_flag || e.final_wait.rx_to,
               er_int_flag := s.er_int_flag || e.final_wait.rx_err,
               frame_seq_nb := u8 (s.frame_seq_nb + 1) } := by
  unfold init_final_wait_left
  rfl

theorem init_entry_eq (e : InitEnv) (public_key : Nat) (s : InitState) :
    init_entry e public_key s =
      { s with tx_int_flag := false, rx_int_flag := e.poll_wait.rx_ok,
               to_int_flag := e.poll_wait.rx_to, er_int_flag := e.poll_wait.rx_err,
               log := s.log ++ [.cfg_output 14, .cfg_output 27,
                 .printf (.public_key public_key), .setrxtimeout 0, .rxenable] } := by
  unfold init_entry InitState.emit
  simp only [List.append_assoc, List.singleton_append, List.cons_append, List.nil_append,
    Bool.false_or]

theorem init_cycle_end_eq (s : InitState) :
    init_cycle_end s =
      if (s.to_int_flag || s.er_int_flag) = true then
        { s with to_int_flag := false, er_int_flag := false, log := s.log ++ [.rxreset] }
      else s := by
  unfold init_cycle_end
  rfl

/-! ## The paths of `ss_init_run` -/

theorem new_actions_append (l d : List Action) : new_actions l (l ++ d) = d := by
  simp [new_actions]

theorem cycle_distance_eq (P : Platform) (e : InitEnv) (s : InitState) :
    cycle_distance P e s =
      block_distance P e (cycle_final_buffer e s) (get_rx_timestamp_u64 e.poll_rx_stamp) := rfl

/-- No flag is ever raised in the first wait loop: the run does not return. -/
theorem ss_init_run_poll_stuck (P : Platform) (e : InitEnv) (s : InitState)
    (h : (e.poll_wait.rx_ok || e.poll_wait.rx_to || e.poll_wait.rx_err) = false) :
    ss_init_run P e s = none := by
  simp only [ss_init_run, init_entry_eq]
  simp [h]

/-- The first wait ends without a good frame. -/
theorem ss_init_run_poll_timeout (P : Platform) (e : InitEnv) (s : InitState)
    (h1 : e.poll_wait.rx_ok = false) (h2 : (e.poll_wait.rx_to || e.poll_wait.rx_err) = true) :
    ss_init_run P e s = some
      { s with
        tx_int_flag := false, rx_int_flag := false, to_int_flag := false,
        er_int_flag := false,
        log := s.log ++ [.cfg_output 14, .cfg_output 27,
          .printf (.public_key (mod_pow 5 (e.rand % 85) 29)), .setrxtimeout 0, .rxenable,
          .rxreset] } := by
  simp only [ss_init_run, init_after_poll_wait, init_entry_eq]
  simp only [h1, Bool.false_or] at h2 ⊢
  simp [h2, init_cycle_end_eq]

/-- The first wait ends with a good frame that fails the prefix check. -/
theorem ss_init_run_poll_rejected (P : Platform) (e : InitEnv) (s : InitState)
    (h1 : e.poll_wait.rx_ok = true)
    (h2 : memcmp_eq (init_poll_buffer e s.rx_buffer) rx_poll_msg ALL_MSG_COMMON_LEN = false) :
    ss_init_run P e s = some
      { s with
        rx_buffer := init_poll_buffer e s.rx_buffer,
        tx_int_flag := false, rx_int_flag := true, to_int_flag := false,
        er_int_flag := false,
        log := s.log ++ ([.cfg_output 14, .cfg_output 27,
          .printf (.public_key (mod_pow 5 (e.rand % 85) 29)), .setrxtimeout 0, .rxenable,
          .printf .poll_msg_r] ++
          if (e.poll_wait.rx_to || e.poll_wait.rx_err) = true then [.rxreset] else []) } := by
  simp only [ss_init_run, init_after_poll_wait, init_entry_eq, InitState.emit]
  cases h3 : e.poll_wait.rx_to <;> cases h4 : e.poll_wait.rx_err <;>
    simp [h1, h2, init_cycle_end_eq]

/-- The poll is accepted and the transmission of the response is never confirmed: the run
does not return. -/
theorem ss_init_run_tx_stuck (P : Platform) (e : InitEnv) (s : InitState)
    (h : poll_accepted e s) (h3 : e.tx_conf = false) :
    ss_init_run P e s = none := by
  obtain ⟨h1, h2⟩ := h
  simp only [ss_init_run, init_after_poll_wait, init_poll_accepted, init_entry_eq,
    InitState.emit]
  simp [h1, h2, h3]

/-- The poll is accepted, the response is sent, and no flag is ever raised in the second
wait loop (nor was the timeout flag raised in the first): the run does not return. -/
theorem ss_init_run_final_stuck (P : Platform) (e : InitEnv) (s : InitState)
    (h : poll_accepted e s) (h3 : e.tx_conf = true)
    (h4 : (e.final_wait.rx_ok || (e.poll_wait.rx_to || e.final_wait.rx_to) ||
      e.final_wait.rx_err) = false) :
    ss_init_run P e s = none := by
  obtain ⟨h1, h2⟩ := h
  simp only [ss_init_run, init_after_poll_wait, init_poll_accepted, init_entry_eq,
    init_send_response_eq, init_tx_confirmed_eq, init_final_wait_left_eq, InitState.emit]
  simp only [Bool.false_or]
  simp [h1, h2, h3, h4]

/-- The poll is accepted, the response is sent, and the second wait ends without a good
frame. -/
theorem ss_init_run_final_timeout (P : Platform) (e : InitEnv) (s : InitState)
    (h : poll_accepted e s) (h3 : e.tx_conf = true) (h4 : e.final_wait.rx_ok = false)
    (h5 : ((e.poll_wait.rx_to || e.final_wait.rx_to) || e.final_wait.rx_err) = true) :
    ss_init_run P e s = some
      { s with
        rx_buffer := init_poll_buffer e s.rx_buffer,
        tx_resp_msg := (s.tx_resp_msg.set 12 (mod_pow 5 (e.rand % 85) 29)).set
          ALL_MSG_SN_IDX s.frame_seq_nb,
        frame_seq_nb := u8 (s.frame_seq_nb + 1),
        tx_int_flag := false, rx_int_flag := false, to_int_flag := false,
        er_int_flag := false,
        tx_count := s.tx_count + 1,
        poll_rx_ts := get_rx_timestamp_u64 e.poll_rx_stamp,
        log := s.log ++ (accepted_calls e s ++ [.rxreset]) } := by
  obtain ⟨h1, h2⟩ := h
  simp only [ss_init_run, init_after_poll_wait, init_poll_accepted, init_entry_eq,
    init_send_response_eq, init_tx_confirmed_eq, init_final_wait_left_eq,
    init_after_final_wait_eq, InitState.emit]
  simp only [Bool.false_or, accepted_calls]
  simp [h1, h2, h3, h4, h5, init_cycle_end_eq]

/-- The poll is accepted, the response is sent, and the second wait ends with a good frame
that fails the prefix check. -/
theorem ss_init_run_final_rejected (P : Platform) (e : InitEnv) (s : InitState)
    (h : poll_accepted e s) (h3 : e.tx_conf = true) (h4 : e.final_wait.rx_ok = true)
    (h5 : memcmp_eq (cycle_final_buffer e s) rx_final_msg ALL_MSG_COMMON_LEN = false) :
    ss_init_run P e s = some
      { s with
        rx_buffer := cycle_final_buffer e s,
        tx_resp_msg := (s.tx_resp_msg.set 12 (mod_pow 5 (e.rand % 85) 29)).set
          ALL_MSG_SN_IDX s.frame_seq_nb,
        frame_seq_nb := u8 (s.frame_seq_nb + 1),
        tx_int_flag := false, rx_int_flag := true, to_int_flag := false,
        er_int_flag := false,
        tx_count := s.tx_count + 1,
        poll_rx_ts := get_rx_timestamp_u64 e.poll_rx_stamp,
        log := s.log ++ (accepted_calls e s ++
          if ((e.poll_wait.rx_to || e.final_wait.rx_to) || e.final_wait.rx_err) = true
          then [.rxreset] else []) } := by
  obtain ⟨h1, h2⟩ := h
  simp only [ss_init_run, init_after_poll_wait, init_poll_accepted, init_entry_eq,
    init_send_response_eq, init_tx_confirmed_eq, init_final_wait_left_eq,
    init_after_final_wait_eq, InitState.emit]
  simp only [Bool.false_or, accepted_calls, cycle_final_buffer] at h5 ⊢
  cases h6 : e.poll_wait.rx_to <;> cases h7 : e.final_wait.rx_to <;>
    cases h8 : e.final_wait.rx_err <;>
    simp [h1, h2, h3, h4, h5, init_cycle_end_eq]

/-- A cycle that receives a valid final frame returns, in the state given here. -/
theorem ss_init_run_accepted (P : Platform) (e : InitEnv) (s : InitState)
    (h : final_accepted e s) :
    ss_init_run P e s = some
      { s with
        rx_buffer := cycle_final_buffer e s,
        tx_resp_msg := (s.tx_resp_msg.set 12 (mod_pow 5 (e.rand % 85) 29)).set
          ALL_MSG_SN_IDX s.frame_seq_nb,
        frame_seq_nb := u8 (s.frame_seq_nb + 1),
        tof := cycle_distance P e s / (SPEED_OF_LIGHT : ℚ),
        distance := cycle_distance P e s,
        tx_int_flag := false, rx_int_flag := false, to_int_flag := false,
        er_int_flag := false,
        tx_count := s.tx_count + 1,
        poll_rx_ts := get_rx_timestamp_u64 e.poll_rx_stamp,
        resp_tx_ts := get_tx_timestamp_u64 e.resp_tx_stamp,
        final_rx_ts := get_rx_timestamp_u64 e.final_rx_stamp,
        pin14 := if cycle_ans e s = cycle_shared_key e s
                 then decide (cycle_distance P e s < 1) else s.pin14,
        pin27 := if cycle_ans e s = cycle_shared_key e s
                 then decide (cycle_distance P e s < 1) else s.pin27,
        log := s.log ++ (accepted_calls e s ++
          ([.printf (.ans (cycle_ans e s)), .printf (.shared_key (cycle_shared_key e s)),
            .printf (.match_ (decide (cycle_ans e s = cycle_shared_key e s)))] ++
           gate_calls (decide (cycle_ans e s = cycle_shared_key e s))
             (cycle_distance P e s))) } := by
  obtain ⟨⟨h1, h2⟩, h3, h4, h5⟩ := h
  simp only [ss_init_run, init_after_poll_wait, init_poll_accepted, init_after_final_wait_eq,
    init_final_accepted_eq, init_entry_eq, init_send_response_eq,
    init_tx_confirmed_eq, init_final_wait_left_eq, InitState.emit]
  simp only [cycle_ans, cycle_shared_key, cycle_distance_eq, cycle_final_buffer,
    accepted_calls] at h5 ⊢
  simp [h1, h2, h3, h4, h5, init_cycle_end_eq]

/-- A cycle that does not receive a valid final frame, if it returns, leaves the two pins
and the variables `tof` and `distance` as they were and writes no pin. -/
theorem ss_init_run_not_accepted (P : Platform) (e : InitEnv) (s s1 : InitState)
    (h : ¬ final_accepted e s) (hr : ss_init_run P e s = some s1) :
    s1.pin14 = s.pin14 ∧ s1.pin27 = s.pin27 ∧ s1.tof = s.tof ∧ s1.distance = s.distance ∧
      ¬ writes_output (new_actions s.log s1.log) := by
  cases h1 : e.poll_wait.rx_ok
  · cases h2 : (e.poll_wait.rx_to || e.poll_wait.rx_err)
    · rw [ss_init_run_poll_stuck P e s (by simp [h1, h2])] at hr
      exact Option.noConfusion hr
    · rw [ss_init_run_poll_timeout P e s h1 h2] at hr
      cases hr
      simp [new_actions_append, writes_output]
  · cases h2 : memcmp_eq (init_poll_buffer e s.rx_buffer) rx_poll_msg ALL_MSG_COMMON_LEN
    · rw [ss_init_run_poll_rejected P e s h1 h2] at hr
      cases hr
      simp only [new_actions_append]
      split_ifs <;> simp [writes_output]
    · have hp : poll_accepted e s := ⟨h1, h2⟩
      cases h3 : e.tx_conf
      · rw [ss_init_run_tx_stuck P e s hp h3] at hr
        exact Option.noConfusion hr
      · cases h4 : e.final_wait.rx_ok
        · cases h5 : ((e.poll_wait.rx_to || e.final_wait.rx_to) || e.final_wait.rx_err)
          · rw [ss_init_run_final_stuck P e s hp h3 (by simp [h4] at h5 ⊢; simp [h5])] at hr
            exact Option.noConfusion hr
          · rw [ss_init_run_final_timeout P e s hp h3 h4 h5] at hr
            cases hr
            simp [new_actions_append, writes_output, accepted_calls]
        · cases h5 : memcmp_eq (cycle_final_buffer e s) rx_final_msg ALL_MSG_COMMON_LEN
          · rw [ss_init_run_final_rejected P e s hp h3 h4 h5] at hr
            cases hr
            simp only [new_actions_append]
            split_ifs <;> simp [writes_output, accepted_calls]
          · exact absurd ⟨hp, h3, h4, h5⟩ h

/-! ## The blocks and paths of `ss_resp_run` -/

theorem resp_entry_eq (e : RespEnv) (public_key : Nat) (s : RespState) :
    resp_entry e public_key s =
      { s with
        tx_poll_msg := s.tx_poll_msg.set 23 public_key,
        devID := e.devid,
        led3 := true,
        log := s.log ++ [.cfg_output LED3, .pin_set LED3, .readdevid,
          .writetxdata 26 (tx_payload 26 (s.tx_poll_msg.set 23 public_key)),
          .writetxfctrl 26, .starttx .tx_immediate_response_expected] } := by
  unfold resp_entry RespState.emit
  simp only [List.append_assoc, List.singleton_append, List.cons_append, List.nil_append]

/-- The array `tx_final_msg` as `resp_send_final` leaves it. -/
theorem resp_send_final_eq (P : Platform) (e : RespEnv) (k : Nat) (s : RespState) :
    resp_send_final P e k s =
      { s with
        poll_tx_ts := get_tx_timestamp_u64 e.poll_tx_stamp,
        resp_rx_ts := get_rx_timestamp_u64 e.resp_rx_stamp,
        final_tx_ts := resp_final_tx_ts P e,
        tx_final_msg := resp_final_msg P e k s.tx_final_msg s.frame_seq_nb,
        log := s.log ++ [.setdelayedtrxtime (resp_final_tx_time e),
          .writetxdata 26 (tx_payload 26 (resp_final_msg P e k s.tx_final_msg s.frame_seq_nb)),
          .writetxfctrl 26, .starttx .rx_delayed, .starttx .rx_immediate] } := by
  unfold resp_send_final RespState.emit resp_final_msg resp_final_tx_ts resp_final_tx_time
  simp only [List.append_assoc, List.singleton_append, List.cons_append, List.nil_append]

theorem resp_final_sent_eq (s : RespState) :
    resp_final_sent s =
      { s with frame_seq_nb := u8 (s.frame_seq_nb + 1),
               log := s.log ++ [.write_status .txfrs] } := by
  unfold resp_final_sent RespState.emit
  rfl

theorem resp_starttx_failed_eq (s : RespState) :
    resp_starttx_failed s =
      { s with log := s.log ++ [.write_status .all_rx_err, .rxreset] } := by
  unfold resp_starttx_failed RespState.emit
  simp only [List.append_assoc, List.singleton_append, List.cons_append, List.nil_append]

/-- The poll could not be started. -/
theorem ss_resp_run_starttx_failed (P : Platform) (e : RespEnv) (s : RespState)
    (h : e.poll_starttx_ok = false) :
    ss_resp_run P e s = some
      { s with
        tx_poll_msg := s.tx_poll_msg.set 23 (resp_public_key e),
        devID := e.devid, led3 := true,
        log := s.log ++ (resp_poll_calls e s ++
          [.write_status .all_rx_err, .rxreset, .deca_sleep RNG_DELAY_MS]) } := by
  simp only [ss_resp_run, resp_entry_eq, resp_starttx_failed_eq, RespState.emit,
    resp_poll_calls, resp_public_key]
  simp [h]

/-- The poll was started and the status never shows a good frame, a timeout or an error:
the run does not return. -/
theorem ss_resp_run_wait_stuck (P : Platform) (e : RespEnv) (s : RespState)
    (h : e.poll_starttx_ok = true)
    (h2 : (e.status.rxfcg || e.status.rx_to || e.status.rx_err) = false) :
    ss_resp_run P e s = none := by
  simp only [ss_resp_run, resp_after_poll_tx, resp_entry_eq]
  simp [h, h2]

/-- The wait ends with a timeout or an error status and no good frame. -/
theorem ss_resp_run_timeout (P : Platform) (e : RespEnv) (s : RespState)
    (h : e.poll_starttx_ok = true) (h2 : e.status.rxfcg = false)
    (h3 : (e.status.rx_to || e.status.rx_err) = true) :
    ss_resp_run P e s = some
      { s with
        tx_poll_msg := s.tx_poll_msg.set 23 (resp_public_key e),
        frame_seq_nb := u8 (s.frame_seq_nb + 1),
        status_reg := e.status,
        devID := e.devid, led3 := true,
        log := s.log ++ (resp_poll_calls e s ++ [.deca_sleep RNG_DELAY_MS]) } := by
  simp only [ss_resp_run, resp_after_poll_tx, resp_entry_eq, RespState.emit,
    resp_poll_calls, resp_public_key]
  simp only [h2, Bool.false_or] at h3 ⊢
  simp [h, h3]

/-- The wait ends with a good frame that fails the prefix check. -/
theorem ss_resp_run_rejected (P : Platform) (e : RespEnv) (s : RespState)
    (h : e.poll_starttx_ok = true) (h2 : e.status.rxfcg = true)
    (h3 : memcmp_eq (resp_buffer P e s.rx_buffer) rx_resp_msg ALL_MSG_COMMON_LEN = false) :
    ss_resp_run P e s = some
      { s with
        tx_poll_msg := s.tx_poll_msg.set 23 (resp_public_key e),
        rx_buffer := resp_buffer P e s.rx_buffer,
        frame_seq_nb := u8 (s.frame_seq_nb + 1),
        status_reg := e.status,
        devID := e.devid, led3 := true,
        log := s.log ++ (resp_poll_calls e s ++
          [.write_status .rxfcg_txfrs, .deca_sleep RNG_DELAY_MS]) } := by
  simp only [ss_resp_run, resp_after_poll_tx, resp_entry_eq, RespState.emit,
    resp_poll_calls, resp_public_key]
  simp [h, h2, h3]

/-- The response is accepted and the final frame cannot be started. -/
theorem ss_resp_run_final_failed (P : Platform) (e : RespEnv) (s : RespState)
    (h : response_accepted P e s) (h4 : e.final_starttx_ok = false) :
    ss_resp_run P e s = some
      { s with
        tx_poll_msg := s.tx_poll_msg.set 23 (resp_public_key e),
        tx_final_msg := resp_cycle_final_msg P e s,
        rx_buffer := resp_buffer P e s.rx_buffer,
        frame_seq_nb := u8 (s.frame_seq_nb + 1),
        status_reg := e.status,
        poll_tx_ts := get_tx_timestamp_u64 e.poll_tx_stamp,
        resp_rx_ts := get_rx_timestamp_u64 e.resp_rx_stamp,
        final_tx_ts := resp_final_tx_ts P e,
        devID := e.devid, led3 := true,
        log := s.log ++ (resp_poll_calls e s ++ (resp_final_calls P e s ++
          [.deca_sleep RNG_DELAY_MS])) } := by
  obtain ⟨h1, h2, h3⟩ := h
  simp only [ss_resp_run, resp_after_poll_tx, resp_response_accepted, resp_entry_eq,
    resp_send_final_eq, RespState.emit, resp_poll_calls, resp_final_calls, resp_public_key,
    resp_cycle_final_msg, resp_shared_key]
  simp [h1, h2, h3, h4]

/-- The response is accepted, the final frame is started and its transmission is never
seen: the run does not return. -/
theorem ss_resp_run_final_stuck (P : Platform) (e : RespEnv) (s : RespState)
    (h : response_accepted P e s) (h4 : e.final_starttx_ok = true) (h5 : e.txfrs = false) :
    ss_resp_run P e s = none := by
  obtain ⟨h1, h2, h3⟩ := h
  simp only [ss_resp_run, resp_after_poll_tx, resp_response_accepted, resp_entry_eq,
    resp_send_final_eq, RespState.emit]
  simp [h1, h2, h3, h4, h5]

/-- The response is accepted and the final frame is sent. -/
theorem ss_resp_run_final_sent (P : Platform) (e : RespEnv) (s : RespState)
    (h : response_accepted P e s) (h4 : e.final_starttx_ok = true) (h5 : e.txfrs = true) :
    ss_resp_run P e s = some
      { s with
        tx_poll_msg := s.tx_poll_msg.set 23 (resp_public_key e),
        tx_final_msg := resp_cycle_final_msg P e s,
        rx_buffer := resp_buffer P e s.rx_buffer,
        frame_seq_nb := u8 (u8 (s.frame_seq_nb + 1) + 1),
        status_reg := e.status,
        poll_tx_ts := get_tx_timestamp_u64 e.poll_tx_stamp,
        resp_rx_ts := get_rx_timestamp_u64 e.resp_rx_stamp,
        final_tx_ts := resp_final_tx_ts P e,
        devID := e.devid, led3 := false,
        log := s.log ++ (resp_poll_calls e s ++ (resp_final_calls P e s ++
          [.pin_clear LED3, .write_status .txfrs, .deca_sleep RNG_DELAY_MS])) } := by
  obtain ⟨h1, h2, h3⟩ := h
  simp only [ss_resp_run, resp_after_poll_tx, resp_response_accepted, resp_entry_eq,
    resp_send_final_eq, resp_final_sent_eq, RespState.emit, resp_poll_calls,
    resp_final_calls, resp_public_key, resp_cycle_final_msg, resp_shared_key]
  simp [h1, h2, h3, h4, h5]

/-! ## Facts about the demonstration exchange -/

theorem demo_shared_key :
    cycle_shared_key demo_init_env InitState.initial = 28 := by
  have h : (init_poll_buffer demo_init_env InitState.initial.rx_buffer).getD 23 0 = 13 := by
    decide
  unfold cycle_shared_key
  rw [h]
  simp [demo_init_env, mod_pow, mod_pow_loop, u8, u32]

theorem demo_match :
    cycle_ans demo_init_env InitState.initial =
      cycle_shared_key demo_init_env InitState.initial := by
  rw [demo_shared_key]; decide

theorem demo_distance :
    cycle_distance demo_platform demo_init_env InitState.initial =
      99900849 / 2129920000 := by
  have hr : cycle_round_trips demo_init_env InitState.initial =
      ⟨2 * 10 + 78643200, 2 * 10 + 262160372, 262160372, 78643200⟩ := by decide
  unfold cycle_distance
  simp only [hr]
  rw [estimate_tof_dtu_symmetric demo_platform 10 262160372 78643200 (by decide)]
  norm_num [demo_platform, SPEED_OF_LIGHT]

/-! ## Claims on the gate of the initiator -/

/-- With a zero divisor the estimator returns the value of the platform. -/
theorem estimate_tof_dtu_zero_divisor (P : Platform) (r : RoundTrips)
    (h0 : r.Ra + r.Rb + r.Da + r.Db = 0) :
    estimate_tof_dtu P r.Ra r.Rb r.Da r.Db = P.int64_of_nan := by
  unfold estimate_tof_dtu
  rw [if_pos]
  exact_mod_cast h0

/-- C7 (as amended). The source has no division-by-zero guard: an initiator cycle that
receives a valid final frame whose timestamps give `Ra + Rb + Da + Db = 0` returns like any
other cycle with a valid final frame; `tof_dtu` is what the platform's conversion of the
undefined quotient yields, the distance computed from it is stored in `distance`, and the
verified-proximity output is asserted if and only if byte 23 equals the shared key and that
distance is below 1.0. -/
theorem zero_divisor_unguarded (P : Platform) (e : InitEnv) (s : InitState)
    (h : final_accepted e s)
    (h0 : (cycle_round_trips e s).Ra + (cycle_round_trips e s).Rb +
      (cycle_round_trips e s).Da + (cycle_round_trips e s).Db = 0) :
    ∃ s1, ss_init_run P e s = some s1 ∧
      s1.distance = (P.int64_of_nan : ℚ) * P.DWT_TIME_UNITS * (SPEED_OF_LIGHT : ℚ) ∧
      (verified_asserted (new_actions s.log s1.log) ↔
        (cycle_ans e s = cycle_shared_key e s ∧
          (P.int64_of_nan : ℚ) * P.DWT_TIME_UNITS * (SPEED_OF_LIGHT : ℚ) < 1)) := by
  have hd : cycle_distance P e s =
      (P.int64_of_nan : ℚ) * P.DWT_TIME_UNITS * (SPEED_OF_LIGHT : ℚ) := by
    unfold cycle_distance
    simp only [estimate_tof_dtu_zero_divisor P _ h0]
  refine ⟨_, ss_init_run_accepted P e s h, ?_, ?_⟩
  · exact hd
  · simp only [new_actions_append, verified_asserted, gate_calls, accepted_calls, hd]
    by_cases hm : cycle_ans e s = cycle_shared_key e s
    · by_cases hlt : (P.int64_of_nan : ℚ) * P.DWT_TIME_UNITS * (SPEED_OF_LIGHT : ℚ) < 1
      · simp [hm, hlt]
      · simp [hm, hlt]
    · simp [hm]

theorem demo_degenerate_accepted : final_accepted demo_degenerate_env demo_unlocked_state := by
  decide

theorem demo_degenerate_divisor :
    (cycle_round_trips demo_degenerate_env demo_unlocked_state).Ra +
      (cycle_round_trips demo_degenerate_env demo_unlocked_state).Rb +
      (cycle_round_trips demo_degenerate_env demo_unlocked_state).Da +
      (cycle_round_trips demo_degenerate_env demo_unlocked_state).Db = 0 := by
  decide

theorem demo_degenerate_match :
    cycle_ans demo_degenerate_env demo_unlocked_state =
      cycle_shared_key demo_degenerate_env demo_unlocked_state := by
  have h : (init_poll_buffer demo_degenerate_env demo_unlocked_state.rx_buffer).getD 23 0
      = 13 := by decide
  have h2 : cycle_ans demo_degenerate_env demo_unlocked_state = 28 := by decide
  unfold cycle_shared_key
  rw [h, h2]
  simp [demo_degenerate_env, demo_init_env, mod_pow, mod_pow_loop, u8, u32]

theorem zero_divisor_unguarded_witness :
    ∃ s1, ss_init_run demo_platform demo_degenerate_env demo_unlocked_state = some s1 ∧
      s1.distance = 0 ∧
      verified_asserted (new_actions demo_unlocked_state.log s1.log) := by
  obtain ⟨s1, hr, hd, hv⟩ := zero_divisor_unguarded demo_platform demo_degenerate_env
    demo_unlocked_state demo_degenerate_accepted demo_degenerate_divisor
  refine ⟨s1, hr, ?_, ?_⟩
  · rw [hd]; simp [demo_platform]
  · exact hv.mpr ⟨demo_degenerate_match, by simp [demo_platform]⟩

/-- C7 (counterexample). The claim as stated, that a cycle with a valid final frame and
`Ra + Rb + Da + Db = 0` produces no distance and does not assert the verified-proximity
output, fails: on the demonstration platform the degenerate exchange overwrites `distance`
and asserts the output. -/
theorem zero_divisor_guard_fails :
    ¬ (∀ (P : Platform) (e : InitEnv) (s s1 : InitState), final_accepted e s →
        (cycle_round_trips e s).Ra + (cycle_round_trips e s).Rb +
          (cycle_round_trips e s).Da + (cycle_round_trips e s).Db = 0 →
        ss_init_run P e s = some s1 →
        s1.distance = s.distance ∧ ¬ verified_asserted (new_actions s.log s1.log)) := by
  intro H
  have hr := ss_init_run_accepted demo_platform demo_degenerate_env demo_unlocked_state
    demo_degenerate_accepted
  have h := (H demo_platform demo_degenerate_env demo_unlocked_state _
    demo_degenerate_accepted demo_degenerate_divisor hr).2
  apply h
  simp only [new_actions_append, verified_asserted, gate_calls, accepted_calls]
  have hd : cycle_distance demo_platform demo_degenerate_env demo_unlocked_state = 0 := by
    unfold cycle_distance
    simp only [estimate_tof_dtu_zero_divisor demo_platform _ demo_degenerate_divisor]
    simp [demo_platform]
  simp [demo_degenerate_match, hd]

/-! ## Claim on the authentication mismatch -/

theorem demo_mismatch_accepted : final_accepted demo_mismatch_env demo_unlocked_state := by
  decide

theorem demo_mismatch_key :
    cycle_shared_key demo_mismatch_env demo_unlocked_state = 28 := by
  have h : (init_poll_buffer demo_mismatch_env demo_unlocked_state.rx_buffer).getD 23 0
      = 13 := by decide
  unfold cycle_shared_key
  rw [h]
  simp [demo_mismatch_env, demo_init_env, mod_pow, mod_pow_loop, u8, u32]

/-- C9 (failing input). Both pins are active from an earlier verified cycle; a valid final
frame arrives whose byte 23 is 27 while the shared key is 28.  The cycle returns, writes
neither pin, and both pins are still active afterwards. -/
theorem mismatch_leaves_output_asserted :
    final_accepted demo_mismatch_env demo_unlocked_state ∧
    cycle_ans demo_mismatch_env demo_unlocked_state = 27 ∧
    cycle_shared_key demo_mismatch_env demo_unlocked_state = 28 ∧
    ∃ s1, ss_init_run demo_platform demo_mismatch_env demo_unlocked_state = some s1 ∧
      s1.pin14 = true ∧ s1.pin27 = true ∧
      ¬ writes_output (new_actions demo_unlocked_state.log s1.log) := by
  have hans : cycle_ans demo_mismatch_env demo_unlocked_state = 27 := by decide
  have hne : cycle_ans demo_mismatch_env demo_unlocked_state ≠
      cycle_shared_key demo_mismatch_env demo_unlocked_state := by
    rw [hans, demo_mismatch_key]; decide
  refine ⟨demo_mismatch_accepted, hans, demo_mismatch_key,
    _, ss_init_run_accepted _ _ _ demo_mismatch_accepted, ?_, ?_, ?_⟩
  · simp only [if_neg hne]; rfl
  · simp only [if_neg hne]; rfl
  · simp [new_actions_append, writes_output, accepted_calls, gate_calls, hne]

/-! ## Claims on the prefix checks -/

theorem take_eq_take_iff_getElem? (a b : List Nat) (n : Nat) :
    a.take n = b.take n ↔ ∀ i < n, a[i]? = b[i]? := by
  constructor
  · intro h i hi
    have h2 := congrArg (fun l => l[i]?) h
    simpa [List.getElem?_take, hi] using h2
  · intro h
    apply List.ext_getElem?
    intro i
    by_cases hi : i < n
    · simp [List.getElem?_take, hi, h i hi]
    · simp [List.getElem?_take, hi]

theorem dwt_readrxdata_getElem? (buf frame : List Nat) (i : Nat) :
    (dwt_readrxdata buf frame)[i]? =
      if i < buf.length then (if i < frame.length then frame[i]? else buf[i]?) else none := by
  unfold dwt_readrxdata
  rw [List.getElem?_take]
  by_cases h1 : i < buf.length
  · rw [if_pos h1, if_pos h1, List.getElem?_append]
    by_cases h2 : i < frame.length
    · rw [if_pos h2, if_pos h2]
    · rw [if_neg h2, if_neg h2, List.getElem?_drop]
      congr 1; omega
  · rw [if_neg h1, if_neg h1]

theorem dwt_readrxdata_length (buf frame : List Nat) :
    (dwt_readrxdata buf frame).length = buf.length := by
  unfold dwt_readrxdata
  simp only [List.length_take, List.length_append, List.length_drop]
  omega

/-- The check after a read that took place: the verdict is equality on the header. -/
theorem memcmp_after_read (buf frame tmpl : List Nat) (hb : buf.length = 26)
    (hf : 10 ≤ frame.length) (ht : tmpl[2]? = some 0) :
    memcmp_eq ((dwt_readrxdata buf frame).set ALL_MSG_SN_IDX 0) tmpl ALL_MSG_COMMON_LEN = true
      ↔ header_matches frame tmpl := by
  unfold memcmp_eq header_matches header_positions ALL_MSG_SN_IDX ALL_MSG_COMMON_LEN
  rw [decide_eq_true_iff, take_eq_take_iff_getElem?]
  have key : ∀ i < 10, ((dwt_readrxdata buf frame).set 2 0)[i]? =
      if i = 2 then some 0 else frame[i]? := by
    intro i hi
    rw [List.getElem?_set, dwt_readrxdata_length, dwt_readrxdata_getElem?]
    by_cases h2 : 2 = i
    · subst h2; simp [hb]
    · have h3 : ¬ i = 2 := fun h => h2 h.symm
      rw [if_neg h2, if_neg h3, if_pos (by omega), if_pos (by omega)]
  constructor
  · intro h i hi
    have hi10 : i < 10 := by
      simp only [List.mem_cons, List.mem_singleton, List.not_mem_nil, or_false] at hi
      omega
    have hi2 : ¬ i = 2 := by
      simp only [List.mem_cons, List.mem_singleton, List.not_mem_nil, or_false] at hi
      omega
    have := h i hi10
    rw [key i hi10, if_neg hi2] at this
    exact this
  · intro h i hi
    rw [key i hi]
    by_cases h2 : i = 2
    · subst h2; rw [if_pos rfl, ht]
    · rw [if_neg h2]
      apply h
      simp only [List.mem_cons, List.mem_singleton, List.not_mem_nil, or_false]
      omega

theorem header_matches_set_other (frame tmpl : List Nat) (i v : Nat) (hi : i = 2 ∨ 10 ≤ i) :
    header_matches (frame.set i v) tmpl ↔ header_matches frame tmpl := by
  unfold header_matches header_positions
  have key : ∀ j ∈ [0, 1, 3, 4, 5, 6, 7, 8, 9], (frame.set i v)[j]? = frame[j]? := by
    intro j hj
    apply List.getElem?_set_ne
    simp only [List.mem_cons, List.mem_singleton, List.not_mem_nil, or_false] at hj
    omega
  constructor
  · intro h j hj; rw [← key j hj]; exact h j hj
  · intro h j hj; rw [key j hj]; exact h j hj

theorem header_matches_set_header (frame tmpl : List Nat) (i v : Nat)
    (hi : i ∈ header_positions) (hlen : 10 ≤ frame.length) (hm : header_matches frame tmpl)
    (hv : frame[i]? ≠ some v) : ¬ header_matches (frame.set i v) tmpl := by
  intro h
  have h1 := h i hi
  have h2 := hm i hi
  have hil : i < frame.length := by
    unfold header_positions at hi
    simp only [List.mem_cons, List.mem_singleton, List.not_mem_nil, or_false] at hi
    omega
  rw [List.getElem?_set, if_pos rfl, if_pos hil] at h1
  exact hv (by rw [h2, ← h1])

/-- A verdict that is equality on the header satisfies the whole of `header_check_exact`. -/
theorem header_check_exact_of_iff (verdict : List Nat → Bool) (tmpl : List Nat)
    (len_ok : Nat → Prop)
    (h : ∀ frame : List Nat, 10 ≤ frame.length → len_ok frame.length →
      (verdict frame = true ↔ header_matches frame tmpl)) :
    header_check_exact verdict tmpl len_ok := by
  intro frame hlen hok
  refine ⟨h frame hlen hok, ?_, ?_⟩
  · intro i hi v hacc hv
    have hm := (h frame hlen hok).mp hacc
    have hn := header_matches_set_header frame tmpl i v hi hlen hm hv
    have hiff := h (frame.set i v) (by simpa using hlen) (by simpa using hok)
    cases hver : verdict (frame.set i v)
    · rfl
    · exact absurd (hiff.mp hver) hn
  · intro i v hi
    have h1 := h (frame.set i v) (by simpa using hlen) (by simpa using hok)
    have h2 := h frame hlen hok
    have h3 := header_matches_set_other frame tmpl i v hi
    cases hver : verdict (frame.set i v) <;> cases hver2 : verdict frame <;> simp_all

/-- C10 (as amended). Frame-prefix validation is an equality check that ignores the
sequence number, for the frames that the engine reads: a received frame of 10 to 26 bytes
at the poll check of `ss_init_run`, of 10 to 20 or 24 to 26 bytes at its final check, and
of 10 to 26 bytes not longer than `RX_BUFFER_LEN` at the response check of `ss_resp_run`,
is accepted if and only if its bytes 0, 1 and 3..9 equal those of the expected template;
changing one of these bytes of an accepted frame causes rejection, changing only byte 2 or
a byte from 10 on never changes the verdict. -/
theorem header_checks_exact (P : Platform) (eI : InitEnv) (eR : RespEnv)
    (bufI bufR : List Nat) (hI : bufI.length = 26) (hR : bufR.length = 26) :
    header_check_exact (poll_verdict eI bufI) rx_poll_msg (fun n => n ≤ 26) ∧
    header_check_exact (final_verdict eI bufI) rx_final_msg
      (fun n => n ≤ 20 ∨ n = 24 ∨ n = 25 ∨ n = 26) ∧
    header_check_exact (resp_verdict P eR bufR) rx_resp_msg
      (fun n => n ≤ 26 ∧ n ≤ P.RX_BUFFER_LEN) := by
  refine ⟨?_, ?_, ?_⟩
  · apply header_check_exact_of_iff
    intro frame hlen hok
    unfold poll_verdict init_poll_buffer
    simp only [RX_BUF_LEN]
    rw [if_pos hok]
    exact memcmp_after_read bufI frame rx_poll_msg hI hlen rfl
  · apply header_check_exact_of_iff
    intro frame hlen hok
    unfold final_verdict init_final_buffer
    simp only []
    by_cases h20 : frame.length ≤ 20
    · rw [if_pos h20]
      exact memcmp_after_read bufI frame rx_final_msg hI hlen rfl
    · rw [if_neg h20, if_pos (by omega)]
      exact memcmp_after_read bufI frame rx_final_msg hI hlen rfl
  · apply header_check_exact_of_iff
    intro frame hlen hok
    unfold resp_verdict resp_buffer
    simp only []
    rw [if_pos hok.2]
    exact memcmp_after_read bufR frame rx_resp_msg hR hlen rfl

theorem header_checks_exact_witness :
    poll_verdict demo_init_env InitState.initial.rx_buffer demo_init_env.poll_frame = true ↔
      header_matches demo_init_env.poll_frame rx_poll_msg :=
  ((header_checks_exact demo_platform demo_init_env demo_resp_env
    InitState.initial.rx_buffer RespState.initial.rx_buffer (by decide) (by decide)).1
      demo_init_env.poll_frame (by decide) (by decide)).1

/-- C10 (counterexample). At the final check of `ss_init_run` a frame of 21 bytes is not
read: with the accepted poll still in `rx_buffer`, a 21-byte frame whose bytes 0, 1, 3..9
equal those of `rx_final_msg` is rejected. -/
theorem final_check_skips_short_frame :
    demo_short_final.length = 21 ∧
    header_matches demo_short_final rx_final_msg ∧
    final_verdict demo_init_env
      (init_poll_buffer demo_init_env InitState.initial.rx_buffer) demo_short_final = false ∧
    ¬ final_accepted { demo_init_env with final_frame := demo_short_final }
      InitState.initial := by
  decide

/-! ## The exchange end to end -/

theorem sent_payloads_append (l1 l2 : List Action) :
    sent_payloads (l1 ++ l2) = sent_payloads l1 ++ sent_payloads l2 := by
  induction l1 with
  | nil => rfl
  | cons a l ih =>
    cases a <;> simp [sent_payloads, ih]

/-- A responder cycle that hands two payloads to the radio has accepted the response; the
payloads are the poll with the public key and the final frame with the shared key. -/
theorem ss_resp_run_two_payloads (P : Platform) (e : RespEnv) (s s1 : RespState)
    (poll final : List Nat) (hr : ss_resp_run P e s = some s1)
    (hs : sent_payloads (new_actions s.log s1.log) = [poll, final]) :
    response_accepted P e s ∧
      poll = tx_payload 26 (s.tx_poll_msg.set 23 (resp_public_key e)) ∧
      final = tx_payload 26 (resp_cycle_final_msg P e s) := by
  cases h1 : e.poll_starttx_ok
  · rw [ss_resp_run_starttx_failed P e s h1] at hr
    cases hr
    simp [new_actions_append, sent_payloads, resp_poll_calls] at hs
  · cases h2 : e.status.rxfcg
    · cases h3 : (e.status.rx_to || e.status.rx_err)
      · rw [ss_resp_run_wait_stuck P e s h1 (by simp [h2] at h3 ⊢; simp [h3])] at hr
        exact Option.noConfusion hr
      · rw [ss_resp_run_timeout P e s h1 h2 h3] at hr
        cases hr
        simp [new_actions_append, sent_payloads, resp_poll_calls] at hs
    · cases h3 : memcmp_eq (resp_buffer P e s.rx_buffer) rx_resp_msg ALL_MSG_COMMON_LEN
      · rw [ss_resp_run_rejected P e s h1 h2 h3] at hr
        cases hr
        simp [new_actions_append, sent_payloads, resp_poll_calls] at hs
      · have ha : response_accepted P e s := ⟨h1, h2, h3⟩
        cases h4 : e.final_starttx_ok
        · rw [ss_resp_run_final_failed P e s ha h4] at hr
          cases hr
          simp [new_actions_append, sent_payloads, resp_poll_calls, resp_final_calls] at hs
          exact ⟨ha, hs.1.symm, hs.2.symm⟩
        · cases h5 : e.txfrs
          · rw [ss_resp_run_final_stuck P e s ha h4 h5] at hr
            exact Option.noConfusion hr
          · rw [ss_resp_run_final_sent P e s ha h4 h5] at hr
            cases hr
            simp [new_actions_append, sent_payloads, resp_poll_calls, resp_final_calls] at hs
            exact ⟨ha, hs.1.symm, hs.2.symm⟩

/-- An initiator cycle that hands a payload to the radio has accepted the poll and seen
its transmission confirmed; the payload is the response with the public key. -/
theorem ss_init_run_one_payload (P : Platform) (e : InitEnv) (s s1 : InitState)
    (resp : List Nat) (hr : ss_init_run P e s = some s1)
    (hs : sent_payloads (new_actions s.log s1.log) = [resp]) :
    poll_accepted e s ∧ e.tx_conf = true ∧
      resp = tx_payload 27 ((s.tx_resp_msg.set 12 (mod_pow 5 (e.rand % 85) 29)).set
        ALL_MSG_SN_IDX s.frame_seq_nb) := by
  cases h1 : e.poll_wait.rx_ok
  · cases h2 : (e.poll_wait.rx_to || e.poll_wait.rx_err)
    · rw [ss_init_run_poll_stuck P e s (by simp [h1, h2])] at hr
      exact Option.noConfusion hr
    · rw [ss_init_run_poll_timeout P e s h1 h2] at hr
      cases hr
      simp [new_actions_append, sent_payloads] at hs
  · cases h2 : memcmp_eq (init_poll_buffer e s.rx_buffer) rx_poll_msg ALL_MSG_COMMON_LEN
    · rw [ss_init_run_poll_rejected P e s h1 h2] at hr
      cases hr
      simp only [new_actions_append, sent_payloads_append] at hs
      split_ifs at hs <;> simp [sent_payloads] at hs
    · have hp : poll_accepted e s := ⟨h1, h2⟩
      cases h3 : e.tx_conf
      · rw [ss_init_run_tx_stuck P e s hp h3] at hr
        exact Option.noConfusion hr
      · refine ⟨hp, rfl, ?_⟩
        cases h4 : e.final_wait.rx_ok
        · cases h5 : ((e.poll_wait.rx_to || e.final_wait.rx_to) || e.final_wait.rx_err)
          · rw [ss_init_run_final_stuck P e s hp h3 (by simp [h4] at h5 ⊢; simp [h5])] at hr
            exact Option.noConfusion hr
          · rw [ss_init_run_final_timeout P e s hp h3 h4 h5] at hr
            cases hr
            simp [new_actions_append, sent_payloads, accepted_calls] at hs
            exact hs.symm
        · cases h5 : memcmp_eq (cycle_final_buffer e s) rx_final_msg ALL_MSG_COMMON_LEN
          · rw [ss_init_run_final_rejected P e s hp h3 h4 h5] at hr
            cases hr
            simp only [new_actions_append, sent_payloads_append] at hs
            split_ifs at hs <;> simp [sent_payloads, accepted_calls] at hs <;> exact hs.symm
          · rw [ss_init_run_accepted P e s ⟨hp, h3, h4, h5⟩] at hr
            cases hr
            simp only [new_actions_append, sent_payloads_append, gate_calls] at hs
            split_ifs at hs <;> simp [sent_payloads, accepted_calls] at hs <;> exact hs.symm

theorem final_msg_set_ts_eq (msg : List Nat) (idx ts : Nat) :
    final_msg_set_ts msg idx ts =
      ((((msg.set (idx + 0) ((ts >>> (0 * 8)) &&& 0xFF)).set (idx + 1)
        ((ts >>> (1 * 8)) &&& 0xFF)).set (idx + 2) ((ts >>> (2 * 8)) &&& 0xFF)).set (idx + 3)
        ((ts >>> (3 * 8)) &&& 0xFF)) := rfl

theorem final_msg_set_ts_length (msg : List Nat) (idx ts : Nat) :
    (final_msg_set_ts msg idx ts).length = msg.length := by
  rw [final_msg_set_ts_eq]; simp

theorem final_msg_set_ts_getElem?_outside (msg : List Nat) (idx ts i : Nat)
    (hi : i < idx ∨ idx + 4 ≤ i) : (final_msg_set_ts msg idx ts)[i]? = msg[i]? := by
  rw [final_msg_set_ts_eq]
  rw [List.getElem?_set_ne (by omega), List.getElem?_set_ne (by omega),
    List.getElem?_set_ne (by omega), List.getElem?_set_ne (by omega)]

theorem resp_final_msg_length (P : Platform) (e : RespEnv) (k : Nat) (msg : List Nat)
    (n : Nat) : (resp_final_msg P e k msg n).length = msg.length := by
  unfold resp_final_msg
  simp [final_msg_set_ts_length]

theorem resp_final_msg_key (P : Platform) (e : RespEnv) (k : Nat) (msg : List Nat) (n : Nat)
    (hlen : msg.length = 26) : (resp_final_msg P e k msg n)[23]? = some k := by
  unfold resp_final_msg ALL_MSG_SN_IDX
  rw [List.getElem?_set_ne (by decide), List.getElem?_set, if_pos rfl, if_pos]
  simp [final_msg_set_ts_length, hlen]

theorem resp_final_msg_header (P : Platform) (e : RespEnv) (k : Nat) (msg : List Nat)
    (n i : Nat) (hi : i ∈ header_positions) : (resp_final_msg P e k msg n)[i]? = msg[i]? := by
  unfold header_positions at hi
  simp only [List.mem_cons, List.mem_singleton, List.not_mem_nil, or_false] at hi
  unfold resp_final_msg ALL_MSG_SN_IDX FINAL_MSG_POLL_TX_TS_IDX FINAL_MSG_RESP_RX_TS_IDX
    FINAL_MSG_FINAL_TX_TS_IDX
  rw [List.getElem?_set_ne (by omega), List.getElem?_set_ne (by omega),
    final_msg_set_ts_getElem?_outside _ _ _ _ (by omega),
    final_msg_set_ts_getElem?_outside _ _ _ _ (by omega),
    final_msg_set_ts_getElem?_outside _ _ _ _ (by omega)]

theorem tx_payload_getElem? (size : Nat) (msg : List Nat) (i : Nat) (hi : i < size - 2) :
    (tx_payload size msg)[i]? = msg[i]? := by
  unfold tx_payload
  rw [List.getElem?_take, if_pos hi]

theorem tx_payload_length (size : Nat) (msg : List Nat) (h : size ≤ msg.length) :
    (tx_payload size msg).length = size - 2 := by
  unfold tx_payload
  rw [List.length_take]; omega

theorem demo_resp_public_key : resp_public_key demo_resp_env = 13 := by
  simp [resp_public_key, demo_resp_env, mod_pow, mod_pow_loop, u8, u32]

theorem demo_resp_shared_key :
    resp_shared_key demo_platform demo_resp_env RespState.initial = 28 := by
  have h : (resp_buffer demo_platform demo_resp_env RespState.initial.rx_buffer).getD 12 0
      = 28 := by decide
  unfold resp_shared_key
  rw [h]
  simp [demo_resp_env, mod_pow, mod_pow_loop, u8, u32]

theorem demo_init_public_key : mod_pow 5 (demo_init_env.rand % 85) 29 = 28 := by
  simp [demo_init_env, mod_pow, mod_pow_loop, u8, u32]

theorem demo_resp_accepted :
    response_accepted demo_platform demo_resp_env RespState.initial := by
  decide

theorem init_initial_well_formed : InitState.initial.well_formed := by decide

theorem resp_initial_well_formed : RespState.initial.well_formed := by decide

theorem init_poll_buffer_length (e : InitEnv) (buf : List Nat) :
    (init_poll_buffer e buf).length = buf.length := by
  unfold init_poll_buffer
  simp only []
  split_ifs <;> simp [dwt_readrxdata_length]

theorem init_final_buffer_length (e : InitEnv) (buf : List Nat) :
    (init_final_buffer e buf).length = buf.length := by
  unfold init_final_buffer
  simp only []
  split_ifs <;> simp [dwt_readrxdata_length]

theorem resp_buffer_length (P : Platform) (e : RespEnv) (buf : List Nat) :
    (resp_buffer P e buf).length = buf.length := by
  unfold resp_buffer
  simp only []
  split_ifs <;> simp [dwt_readrxdata_length]

/-- Every returning cycle of the initiator keeps the sizes of its arrays. -/
theorem ss_init_run_well_formed (P : Platform) (e : InitEnv) (s s1 : InitState)
    (hw : s.well_formed) (hr : ss_init_run P e s = some s1) : s1.well_formed := by
  obtain ⟨hb, hm⟩ := hw
  cases h1 : e.poll_wait.rx_ok
  · cases h2 : (e.poll_wait.rx_to || e.poll_wait.rx_err)
    · rw [ss_init_run_poll_stuck P e s (by simp [h1, h2])] at hr
      exact Option.noConfusion hr
    · rw [ss_init_run_poll_timeout P e s h1 h2] at hr
      cases hr
      exact ⟨hb, hm⟩
  · cases h2 : memcmp_eq (init_poll_buffer e s.rx_buffer) rx_poll_msg ALL_MSG_COMMON_LEN
    · rw [ss_init_run_poll_rejected P e s h1 h2] at hr
      cases hr
      exact ⟨by simp [init_poll_buffer_length, hb], hm⟩
    · have hp : poll_accepted e s := ⟨h1, h2⟩
      cases h3 : e.tx_conf
      · rw [ss_init_run_tx_stuck P e s hp h3] at hr
        exact Option.noConfusion hr
      · cases h4 : e.final_wait.rx_ok
        · cases h5 : ((e.poll_wait.rx_to || e.final_wait.rx_to) || e.final_wait.rx_err)
          · rw [ss_init_run_final_stuck P e s hp h3 (by simp [h4] at h5 ⊢; simp [h5])] at hr
            exact Option.noConfusion hr
          · rw [ss_init_run_final_timeout P e s hp h3 h4 h5] at hr
            cases hr
            exact ⟨by simp [init_poll_buffer_length, hb], by simp [hm]⟩
        · cases h5 : memcmp_eq (cycle_final_buffer e s) rx_final_msg ALL_MSG_COMMON_LEN
          · rw [ss_init_run_final_rejected P e s hp h3 h4 h5] at hr
            cases hr
            exact ⟨by simp [cycle_final_buffer, init_final_buffer_length,
              init_poll_buffer_length, hb], by simp [hm]⟩
          · rw [ss_init_run_accepted P e s ⟨hp, h3, h4, h5⟩] at hr
            cases hr
            exact ⟨by simp [cycle_final_buffer, init_final_buffer_length,
              init_poll_buffer_length, hb], by simp [hm]⟩

/-- Every returning cycle of the responder keeps the sizes of its arrays and the header of
`tx_final_msg`. -/
theorem ss_resp_run_well_formed (P : Platform) (e : RespEnv) (s s1 : RespState)
    (hw : s.well_formed) (hr : ss_resp_run P e s = some s1) : s1.well_formed := by
  obtain ⟨hb, hp, hf, hh⟩ := hw
  have hfin : (resp_cycle_final_msg P e s).length = 26 ∧
      header_matches (resp_cycle_final_msg P e s) rx_final_msg := by
    unfold resp_cycle_final_msg
    refine ⟨by rw [resp_final_msg_length, hf], ?_⟩
    intro i hi
    rw [resp_final_msg_header _ _ _ _ _ _ hi]
    exact hh i hi
  cases h1 : e.poll_starttx_ok
  · rw [ss_resp_run_starttx_failed P e s h1] at hr
    cases hr
    exact ⟨hb, by simp [hp], hf, hh⟩
  · cases h2 : e.status.rxfcg
    · cases h3 : (e.status.rx_to || e.status.rx_err)
      · rw [ss_resp_run_wait_stuck P e s h1 (by simp [h2] at h3 ⊢; simp [h3])] at hr
        exact Option.noConfusion hr
      · rw [ss_resp_run_timeout P e s h1 h2 h3] at hr
        cases hr
        exact ⟨hb, by simp [hp], hf, hh⟩
    · cases h3 : memcmp_eq (resp_buffer P e s.rx_buffer) rx_resp_msg ALL_MSG_COMMON_LEN
      · rw [ss_resp_run_rejected P e s h1 h2 h3] at hr
        cases hr
        exact ⟨by simp [resp_buffer_length, hb], by simp [hp], hf, hh⟩
      · have ha : response_accepted P e s := ⟨h1, h2, h3⟩
        cases h4 : e.final_starttx_ok
        · rw [ss_resp_run_final_failed P e s ha h4] at hr
          cases hr
          exact ⟨by simp [resp_buffer_length, hb], by simp [hp], hfin.1, hfin.2⟩
        · cases h5 : e.txfrs
          · rw [ss_resp_run_final_stuck P e s ha h4 h5] at hr
            exact Option.noConfusion hr
          · rw [ss_resp_run_final_sent P e s ha h4 h5] at hr
            cases hr
            exact ⟨by simp [resp_buffer_length, hb], by simp [hp], hfin.1, hfin.2⟩

/-! ## Claims on the timestamp fields -/

theorem and_0xFF (x : Nat) : x &&& 0xFF = x % 256 :=
  Nat.and_pow_two_sub_one_eq_mod x 8

theorem final_msg_get_ts_eq (ts_field : List Nat) :
    final_msg_get_ts ts_field =
      (ts_field.getD 0 0 + ts_field.getD 1 0 * 256 + ts_field.getD 2 0 * 65536 +
        ts_field.getD 3 0 * 16777216) % 4294967296 := by
  unfold final_msg_get_ts
  simp only [List.foldl_cons, List.foldl_nil, u32, Nat.shiftLeft_eq]
  omega

theorem final_msg_set_ts_getElem? (msg : List Nat) (idx ts i : Nat) (hi : i < 4)
    (h : idx + 4 ≤ msg.length) :
    (final_msg_set_ts msg idx ts)[idx + i]? = some ((ts >>> (i * 8)) &&& 0xFF) := by
  rw [final_msg_set_ts_eq]
  have h0 : i = 0 ∨ i = 1 ∨ i = 2 ∨ i = 3 := by omega
  rcases h0 with rfl | rfl | rfl | rfl
  · rw [List.getElem?_set_ne (by omega), List.getElem?_set_ne (by omega),
      List.getElem?_set_ne (by omega), List.getElem?_set, if_pos rfl, if_pos (by omega)]
  · rw [List.getElem?_set_ne (by omega), List.getElem?_set_ne (by omega),
      List.getElem?_set, if_pos rfl, if_pos (by simp; omega)]
  · rw [List.getElem?_set_ne (by omega), List.getElem?_set, if_pos rfl,
      if_pos (by simp; omega)]
  · rw [List.getElem?_set, if_pos rfl, if_pos (by simp; omega)]

/-- Reading back a field written by `final_msg_set_ts` gives the low 32 bits. -/
theorem final_msg_get_set_ts (msg : List Nat) (idx ts : Nat) (h : idx + 4 ≤ msg.length) :
    final_msg_get_ts ((final_msg_set_ts msg idx ts).drop idx) = ts % 4294967296 := by
  have hb : ∀ i < 4, ((final_msg_set_ts msg idx ts).drop idx).getD i 0 =
      (ts >>> (i * 8)) &&& 0xFF := by
    intro i hi
    rw [List.getD_eq_getElem?_getD, List.getElem?_drop,
      final_msg_set_ts_getElem? msg idx ts i hi h]
    rfl
  rw [final_msg_get_ts_eq, hb 0 (by decide), hb 1 (by decide), hb 2 (by decide),
    hb 3 (by decide)]
  simp only [and_0xFF, Nat.shiftRight_eq_div_pow]
  omega

/-- C11. Timestamp field round trip: for every timestamp `ts` (64-bit in the source),
`final_msg_set_ts` writes the four bytes `(ts >> 8i) & 0xFF` for `i = 0..3`, least
significant byte first, and `final_msg_get_ts` applied to those four bytes returns
`ts mod 2 ^ 32`. -/
theorem timestamp_field_round_trip (msg : List Nat) (idx ts : Nat)
    (h : idx + 4 ≤ msg.length) :
    (∀ i < 4, (final_msg_set_ts msg idx ts)[idx + i]? = some ((ts >>> (i * 8)) &&& 0xFF)) ∧
      final_msg_get_ts ((final_msg_set_ts msg idx ts).drop idx) = ts % 2 ^ 32 :=
  ⟨fun i hi => final_msg_set_ts_getElem? msg idx ts i hi h, final_msg_get_set_ts msg idx ts h⟩

theorem timestamp_field_round_trip_witness :
    (∀ i < 4, (final_msg_set_ts tx_final_msg 10 1099511627775)[10 + i]? =
      some ((1099511627775 >>> (i * 8)) &&& 0xFF)) ∧
      final_msg_get_ts ((final_msg_set_ts tx_final_msg 10 1099511627775).drop 10) =
        1099511627775 % 2 ^ 32 :=
  timestamp_field_round_trip tx_final_msg 10 1099511627775 (by decide)

/-! ## Claim on the wraparound-safe subtraction -/

/-- The 32-bit difference of the low 32 bits of two timestamps whose 40-bit difference is
below `2 ^ 32`. -/
theorem sub32_low_bits (t1 t2 : Nat) (h1 : t1 < 2 ^ 40) (h2 : t2 < 2 ^ 40)
    (hd : diff40 t2 t1 < 2 ^ 32) :
    sub32 (u32 t2) (u32 t1) = diff40 t2 t1 := by
  unfold sub32 u32 diff40 at *
  norm_num at h1 h2 hd ⊢
  omega

theorem u32_mod (t : Nat) : u32 (t % 4294967296) = u32 t := by
  unfold u32; omega

/-- C16. Wraparound-safe subtraction: for any two 40-bit timestamps `t1`, `t2` of one
device with `(t2 - t1) mod 2 ^ 40 < 2 ^ 32`, the 32-bit unsigned difference of their low
32 bits equals `(t2 - t1) mod 2 ^ 40`, whether the low 32 bits are obtained by the cast to
`uint32` (as for `Rb` and `Db` in `ss_init_run`) or read back by `final_msg_get_ts` from
the 4-byte fields written by `final_msg_set_ts` (as for `Ra` and `Da`); the 32-bit and the
40-bit counter may have wrapped between `t1` and `t2`. -/
theorem wraparound_safe_subtraction (t1 t2 : Nat) (msg : List Nat) (idx1 idx2 : Nat)
    (h1 : t1 < 2 ^ 40) (h2 : t2 < 2 ^ 40) (hd : diff40 t2 t1 < 2 ^ 32)
    (hi1 : idx1 + 4 ≤ msg.length) (hi2 : idx2 + 4 ≤ msg.length) :
    sub32 (u32 t2) (u32 t1) = diff40 t2 t1 ∧
    sub32 (final_msg_get_ts ((final_msg_set_ts msg idx2 t2).drop idx2))
      (final_msg_get_ts ((final_msg_set_ts msg idx1 t1).drop idx1)) = diff40 t2 t1 := by
  refine ⟨sub32_low_bits t1 t2 h1 h2 hd, ?_⟩
  rw [final_msg_get_set_ts msg idx2 t2 hi2, final_msg_get_set_ts msg idx1 t1 hi1]
  have h := sub32_low_bits t1 t2 h1 h2 hd
  unfold sub32 at h ⊢
  rw [u32_mod, u32_mod]
  unfold u32 at h ⊢
  simpa using h

theorem wraparound_safe_subtraction_witness :
    sub32 (u32 10) (u32 1099511627771) = diff40 10 1099511627771 ∧
    sub32 (final_msg_get_ts ((final_msg_set_ts tx_final_msg 14 10).drop 14))
      (final_msg_get_ts ((final_msg_set_ts tx_final_msg 10 1099511627771).drop 10)) =
        diff40 10 1099511627771 :=
  wraparound_safe_subtraction 1099511627771 10 tx_final_msg 10 14 (by decide) (by decide)
    (by decide) (by decide) (by decide)

/-! ## Claim on the final transmission time -/

/-- The engine computes `final_tx_ts` by `final_tx_ts_of` from the timestamp it read. -/
theorem resp_final_tx_ts_eq (P : Platform) (e : RespEnv) :
    resp_final_tx_ts P e = final_tx_ts_of P (get_rx_timestamp_u64 e.resp_rx_stamp) := rfl

theorem and_0xFFFFFFFE (x : Nat) (h : x < 2 ^ 32) : x &&& 0xFFFFFFFE = x / 2 * 2 := by
  have hm : (0xFFFFFFFE : Nat) = (2 ^ 31 - 1) <<< 1 := by decide
  have hx : x / 2 * 2 = (x >>> 1) <<< 1 := by
    rw [Nat.shiftLeft_eq, Nat.shiftRight_eq_div_pow]
  rw [hm, hx]
  apply Nat.eq_of_testBit_eq
  intro i
  rw [Nat.testBit_and, Nat.testBit_shiftLeft, Nat.testBit_shiftLeft, Nat.testBit_shiftRight,
    Nat.testBit_two_pow_sub_one]
  by_cases hi : i ≥ 1
  · have h1 : 1 + (i - 1) = i := by omega
    rw [h1]
    by_cases h32 : i < 32
    · have : i - 1 < 31 := by omega
      simp [hi, this]
    · have hlt : x < 2 ^ i :=
        lt_of_lt_of_le h (Nat.pow_le_pow_right (by decide) (by omega))
      simp [Nat.testBit_lt_two_pow hlt]
  · simp [hi]

theorem final_tx_ts_of_eq (P : Platform) (r : Nat) (hr : r < 2 ^ 40)
    (hant : P.TX_ANT_DLY + 2 ^ 40 ≤ 2 ^ 64) :
    final_tx_ts_of P r =
      (512 * ((r + RESP_RX_TO_FINAL_TX_DLY_UUS * UUS_TO_DWT_TIME) / 512)) % 2 ^ 40 +
        P.TX_ANT_DLY := by
  unfold final_tx_ts_of
  have hft : final_tx_time_of r < 2 ^ 32 := by
    unfold final_tx_time_of u32; omega
  rw [and_0xFFFFFFFE _ hft]
  unfold final_tx_time_of u32 u64 RESP_RX_TO_FINAL_TX_DLY_UUS UUS_TO_DWT_TIME
  simp only [Nat.shiftLeft_eq, Nat.shiftRight_eq_div_pow]
  norm_num at hr hant ⊢
  omega

/-- C15. Final transmission time: with `D = 4000 * 65536` device time units and antenna
delay `TX_ANT_DLY` (small enough for the sum to fit in 64 bits), for every 40-bit
response-RX timestamp `r` the responder's `final_tx_ts` satisfies: `final_tx_ts -
TX_ANT_DLY` is a multiple of 512, it is the residue modulo `2 ^ 40` of the largest
multiple of 512 not exceeding `r + D` (hence congruent to it), and equal to it whenever
`r + D < 2 ^ 40`. -/
theorem final_transmission_time (P : Platform) (r : Nat) (hr : r < 2 ^ 40)
    (hant : P.TX_ANT_DLY + 2 ^ 40 ≤ 2 ^ 64) :
    (final_tx_ts_of P r - P.TX_ANT_DLY) % 512 = 0 ∧
    final_tx_ts_of P r - P.TX_ANT_DLY = (512 * ((r + 4000 * 65536) / 512)) % 2 ^ 40 ∧
    (r + 4000 * 65536 < 2 ^ 40 →
      final_tx_ts_of P r - P.TX_ANT_DLY = 512 * ((r + 4000 * 65536) / 512)) := by
  have h := final_tx_ts_of_eq P r hr hant
  unfold RESP_RX_TO_FINAL_TX_DLY_UUS UUS_TO_DWT_TIME at h
  rw [h, Nat.add_sub_cancel]
  refine ⟨?_, rfl, ?_⟩
  · norm_num
  · intro hlt
    apply Nat.mod_eq_of_lt
    norm_num at hlt ⊢
    omega

theorem final_transmission_time_witness :
    (final_tx_ts_of demo_platform 79643220 - demo_platform.TX_ANT_DLY) % 512 = 0 ∧
    final_tx_ts_of demo_platform 79643220 - demo_platform.TX_ANT_DLY =
      (512 * ((79643220 + 4000 * 65536) / 512)) % 2 ^ 40 ∧
    (79643220 + 4000 * 65536 < 2 ^ 40 →
      final_tx_ts_of demo_platform 79643220 - demo_platform.TX_ANT_DLY =
        512 * ((79643220 + 4000 * 65536) / 512)) :=
  final_transmission_time demo_platform 79643220 (by decide) (by decide)

/-! ## Further claims on `mod_pow` -/

/-- C17. For every base and exponent (32-bit unsigned in the source) and every modulus `m`
with `2 <= m <= 256`, `mod_pow(base, exponent, m)`, with its 8-bit result variable and
32-bit wrapping products, equals `base ^ exponent mod m` exactly; on the values the loop
holds (`result` and `base` below `m`) no product is changed by the 32-bit wrap and no
reduced value by the conversion to 8 bits. -/
theorem mod_pow_exact_small_modulus (base exp m : Nat) (hm : 2 ≤ m) (hm256 : m ≤ 256) :
    mod_pow base exp m = base ^ exp % m ∧
    ∀ result b : Nat, result < m → b < m →
      u32 (result * b) = result * b ∧ u32 (b * b) = b * b ∧
      u8 (u32 (result * b) % m) = result * b % m := by
  refine ⟨mod_pow_eq_pow_mod base exp m (by omega) hm256, ?_⟩
  intro result b hr hb
  have h1 : result * b < 4294967296 := by nlinarith
  have h2 : b * b < 4294967296 := by nlinarith
  refine ⟨u32_of_lt h1, u32_of_lt h2, ?_⟩
  rw [u32_of_lt h1]
  exact u8_of_lt (lt_of_lt_of_le (Nat.mod_lt _ (by omega)) hm256)

theorem mod_pow_exact_small_modulus_witness :
    mod_pow 4294967295 4294967295 256 = 4294967295 ^ 4294967295 % 256 :=
  (mod_pow_exact_small_modulus 4294967295 4294967295 256 (by decide) (by decide)).1

/-- A public byte congruent to 1 modulo 29 gives the shared key 1. -/
theorem mod_pow_of_mod_one (g k : Nat) (hg : g % 29 = 1) : mod_pow g k 29 = 1 := by
  rw [mod_pow_eq_pow_mod g k 29 (by decide) (by decide), Nat.pow_mod, hg, one_pow]
  decide

/-- C20. Degenerate public byte: for every private key `k`, the shared key
`mod_pow(g, k, 29)` computed from a received public byte `g` with `g mod 29 = 1` is 1; so
initiator runs on a poll carrying `g` that differ only in the value of `rand()` give the
same shared key (namely 1) and the same match verdict, and a valid final frame carrying 1
at offset 23 is accepted as authenticated (the match flag is printed as true) for every
private key. -/
theorem degenerate_public_byte (g : Nat) (hg : g % 29 = 1) :
    (∀ k : Nat, mod_pow g k 29 = 1) ∧
    ∀ (P : Platform) (e : InitEnv) (s : InitState),
      (init_poll_buffer e s.rx_buffer).getD 23 0 = g →
      (∀ r : Nat, cycle_shared_key { e with rand := r } s = 1) ∧
      (∀ r r2 : Nat,
        (cycle_ans { e with rand := r } s = cycle_shared_key { e with rand := r } s ↔
          cycle_ans { e with rand := r2 } s = cycle_shared_key { e with rand := r2 } s)) ∧
      (final_accepted e s → cycle_ans e s = 1 →
        ∀ r : Nat, ∃ s1, ss_init_run P { e with rand := r } s = some s1 ∧
          Action.printf (.match_ true) ∈ new_actions s.log s1.log) := by
  refine ⟨fun k => mod_pow_of_mod_one g k hg, ?_⟩
  intro P e s hbyte
  have hkey : ∀ r : Nat, cycle_shared_key { e with rand := r } s = 1 := by
    intro r
    show mod_pow ((init_poll_buffer e s.rx_buffer).getD 23 0) (r % 85) 29 = 1
    rw [hbyte]
    exact mod_pow_of_mod_one g _ hg
  refine ⟨hkey, ?_, ?_⟩
  · intro r r2
    rw [hkey r, hkey r2]
    exact Iff.rfl
  · intro hacc hans r
    have hacc2 : final_accepted { e with rand := r } s := hacc
    have hans2 : cycle_ans { e with rand := r } s = cycle_shared_key { e with rand := r } s := by
      rw [hkey r]; exact hans
    refine ⟨_, ss_init_run_accepted P _ s hacc2, ?_⟩
    simp [new_actions_append, hans2]

theorem degenerate_public_byte_witness :
    mod_pow 30 7 29 = 1 ∧
    ∃ s1, ss_init_run demo_platform { demo_weak_key_env with rand := 50 }
        InitState.initial = some s1 ∧
      Action.printf (.match_ true) ∈ new_actions InitState.initial.log s1.log :=
  ⟨(degenerate_public_byte 30 (by decide)).1 7,
    ((degenerate_public_byte 30 (by decide)).2 demo_platform demo_weak_key_env
      InitState.initial (by decide)).2.2 (by decide) (by decide) 50⟩

/-! ## Claim on the stale receive buffer -/

/-- C19. Stale receive buffer: in the initiator, when the reported length of a received
frame exceeds 26 at the poll wait, or is 21, 22, 23 or more than 26 at the final wait, the
frame is not copied: the receive buffer after the read step equals the buffer before it
except that byte 2 is set to 0.  So the verdict of the prefix check and the fields taken
from the buffer (the public byte, the authentication byte, the round-trip differences)
are those of the previous content, whatever the frame. -/
theorem stale_receive_buffer (e : InitEnv) (buf : List Nat) :
    (26 < e.poll_frame.length →
      init_poll_buffer e buf = buf.set 2 0 ∧
      poll_verdict e buf e.poll_frame = memcmp_eq (buf.set 2 0) rx_poll_msg 10 ∧
      (init_poll_buffer e buf).getD 23 0 = (buf.set 2 0).getD 23 0) ∧
    (e.final_frame.length = 21 ∨ e.final_frame.length = 22 ∨ e.final_frame.length = 23 ∨
        26 < e.final_frame.length →
      init_final_buffer e buf = buf.set 2 0 ∧
      final_verdict e buf e.final_frame = memcmp_eq (buf.set 2 0) rx_final_msg 10 ∧
      (init_final_buffer e buf).getD 23 0 = (buf.set 2 0).getD 23 0 ∧
      ∀ poll_rx_ts resp_tx_ts final_rx_ts : Nat,
        init_round_trips (init_final_buffer e buf) poll_rx_ts resp_tx_ts final_rx_ts =
          init_round_trips (buf.set 2 0) poll_rx_ts resp_tx_ts final_rx_ts) := by
  constructor
  · intro h
    have hb : init_poll_buffer e buf = buf.set 2 0 := by
      unfold init_poll_buffer RX_BUF_LEN ALL_MSG_SN_IDX
      simp only []
      rw [if_neg (by omega)]
    refine ⟨hb, ?_, by rw [hb]⟩
    show memcmp_eq (init_poll_buffer e buf) rx_poll_msg ALL_MSG_COMMON_LEN = _
    rw [hb]; rfl
  · intro h
    have hb : init_final_buffer e buf = buf.set 2 0 := by
      unfold init_final_buffer ALL_MSG_SN_IDX
      simp only []
      rw [if_neg (by omega), if_neg (by omega)]
    refine ⟨hb, ?_, by rw [hb], fun _ _ _ => by rw [hb]⟩
    show memcmp_eq (init_final_buffer e buf) rx_final_msg ALL_MSG_COMMON_LEN = _
    rw [hb]; rfl

theorem stale_receive_buffer_witness :
    init_final_buffer { demo_init_env with final_frame := demo_short_final }
        (init_poll_buffer demo_init_env InitState.initial.rx_buffer) =
      (init_poll_buffer demo_init_env InitState.initial.rx_buffer).set 2 0 :=
  ((stale_receive_buffer { demo_init_env with final_frame := demo_short_final }
    (init_poll_buffer demo_init_env InitState.initial.rx_buffer)).2
      (Or.inl (by decide))).1

/-! ## Claims on the failed waits -/

/-- C12. Initiator timeout/error abort: in every initiator cycle in which a wait (for the
poll or for the final frame) ends with the timeout or error flag set and no good frame,
the cycle returns, the engine resets the receive path, computes no distance (`tof` and
`distance` keep their values), makes no write to the verified-proximity output, and both
the timeout and the error flag are clear when the cycle ends. -/
theorem initiator_timeout_abort (P : Platform) (e : InitEnv) (s : InitState)
    (h : poll_wait_failed e ∨ final_wait_failed e s) :
    ∃ s1, ss_init_run P e s = some s1 ∧
      Action.rxreset ∈ new_actions s.log s1.log ∧
      s1.tof = s.tof ∧ s1.distance = s.distance ∧
      ¬ writes_output (new_actions s.log s1.log) ∧
      s1.pin14 = s.pin14 ∧ s1.pin27 = s.pin27 ∧
      s1.to_int_flag = false ∧ s1.er_int_flag = false := by
  rcases h with ⟨h1, h2⟩ | ⟨hp, h3, h4, h5⟩
  · refine ⟨_, ss_init_run_poll_timeout P e s h1 h2, ?_⟩
    simp [new_actions_append, writes_output]
  · refine ⟨_, ss_init_run_final_timeout P e s hp h3 h4 h5, ?_⟩
    simp [new_actions_append, writes_output, accepted_calls]

theorem initiator_timeout_abort_witness :
    ∃ s1, ss_init_run demo_platform demo_timeout_env demo_unlocked_state = some s1 ∧
      Action.rxreset ∈ new_actions demo_unlocked_state.log s1.log ∧
      s1.tof = demo_unlocked_state.tof ∧ s1.distance = demo_unlocked_state.distance ∧
      ¬ writes_output (new_actions demo_unlocked_state.log s1.log) ∧
      s1.pin14 = demo_unlocked_state.pin14 ∧ s1.pin27 = demo_unlocked_state.pin27 ∧
      s1.to_int_flag = false ∧ s1.er_int_flag = false :=
  initiator_timeout_abort demo_platform demo_timeout_env demo_unlocked_state
    (Or.inr (by decide))

/-- C13 (failing input). The responder has sent its poll and the wait ends with a
receive-timeout status and no good frame.  The cycle returns after the calls of the poll
and the sleep only: it neither clears the receive-error status bits nor resets the receive
path (and it sends no final frame). -/
theorem responder_timeout_not_cleared :
    resp_wait_failed demo_resp_timeout_env ∧
    ∃ s1, ss_resp_run demo_platform demo_resp_timeout_env RespState.initial = some s1 ∧
      new_actions RespState.initial.log s1.log =
        resp_poll_calls demo_resp_timeout_env RespState.initial ++
          [.deca_sleep RNG_DELAY_MS] ∧
      Action.write_status .all_rx_err ∉ new_actions RespState.initial.log s1.log ∧
      Action.rxreset ∉ new_actions RespState.initial.log s1.log ∧
      (sent_payloads (new_actions RespState.initial.log s1.log)).length = 1 := by
  refine ⟨by decide, _, ss_resp_run_timeout demo_platform demo_resp_timeout_env
    RespState.initial rfl rfl rfl, ?_⟩
  simp [new_actions_append, resp_poll_calls, sent_payloads]

/-! ## The payloads of a cycle -/

/-- A returning responder cycle hands the poll payload to the radio, followed by the final
payload exactly when the response was accepted. -/
theorem ss_resp_run_payloads (P : Platform) (e : RespEnv) (s s1 : RespState)
    (hr : ss_resp_run P e s = some s1) :
    sent_payloads (new_actions s.log s1.log) = [resp_poll_payload e s] ∨
      (response_accepted P e s ∧
        sent_payloads (new_actions s.log s1.log) =
          [resp_poll_payload e s, resp_final_payload P e s]) := by
  unfold resp_poll_payload resp_final_payload
  cases h1 : e.poll_starttx_ok
  · rw [ss_resp_run_starttx_failed P e s h1] at hr
    cases hr
    left
    simp [new_actions_append, sent_payloads, resp_poll_calls]
  · cases h2 : e.status.rxfcg
    · cases h3 : (e.status.rx_to || e.status.rx_err)
      · rw [ss_resp_run_wait_stuck P e s h1 (by simp [h2] at h3 ⊢; simp [h3])] at hr
        exact Option.noConfusion hr
      · rw [ss_resp_run_timeout P e s h1 h2 h3] at hr
        cases hr
        left
        simp [new_actions_append, sent_payloads, resp_poll_calls]
    · cases h3 : memcmp_eq (resp_buffer P e s.rx_buffer) rx_resp_msg ALL_MSG_COMMON_LEN
      · rw [ss_resp_run_rejected P e s h1 h2 h3] at hr
        cases hr
        left
        simp [new_actions_append, sent_payloads, resp_poll_calls]
      · have ha : response_accepted P e s := ⟨h1, h2, h3⟩
        cases h4 : e.final_starttx_ok
        · rw [ss_resp_run_final_failed P e s ha h4] at hr
          cases hr
          right
          refine ⟨ha, ?_⟩
          simp [new_actions_append, sent_payloads, resp_poll_calls, resp_final_calls]
        · cases h5 : e.txfrs
          · rw [ss_resp_run_final_stuck P e s ha h4 h5] at hr
            exact Option.noConfusion hr
          · rw [ss_resp_run_final_sent P e s ha h4 h5] at hr
            cases hr
            right
            refine ⟨ha, ?_⟩
            simp [new_actions_append, sent_payloads, resp_poll_calls, resp_final_calls]

/-- A returning initiator cycle hands nothing to the radio, or the response payload. -/
theorem ss_init_run_payloads (P : Platform) (e : InitEnv) (s s1 : InitState)
    (hr : ss_init_run P e s = some s1) :
    sent_payloads (new_actions s.log s1.log) = [] ∨
      sent_payloads (new_actions s.log s1.log) = [init_resp_payload e s] := by
  cases hs : sent_payloads (new_actions s.log s1.log) with
  | nil => left; rfl
  | cons a l =>
    right
    unfold init_resp_payload
    cases h1 : e.poll_wait.rx_ok
    · cases h2 : (e.poll_wait.rx_to || e.poll_wait.rx_err)
      · rw [ss_init_run_poll_stuck P e s (by simp [h1, h2])] at hr
        exact Option.noConfusion hr
      · rw [ss_init_run_poll_timeout P e s h1 h2] at hr
        cases hr
        simp [new_actions_append, sent_payloads] at hs
    · cases h2 : memcmp_eq (init_poll_buffer e s.rx_buffer) rx_poll_msg ALL_MSG_COMMON_LEN
      · rw [ss_init_run_poll_rejected P e s h1 h2] at hr
        cases hr
        simp only [new_actions_append, sent_payloads_append] at hs
        split_ifs at hs <;> simp [sent_payloads] at hs
      · have hp : poll_accepted e s := ⟨h1, h2⟩
        cases h3 : e.tx_conf
        · rw [ss_init_run_tx_stuck P e s hp h3] at hr
          exact Option.noConfusion hr
        · cases h4 : e.final_wait.rx_ok
          · cases h5 : ((e.poll_wait.rx_to || e.final_wait.rx_to) || e.final_wait.rx_err)
            · rw [ss_init_run_final_stuck P e s hp h3 (by simp [h4] at h5 ⊢; simp [h5])] at hr
              exact Option.noConfusion hr
            · rw [ss_init_run_final_timeout P e s hp h3 h4 h5] at hr
              cases hr
              simp [new_actions_append, sent_payloads, accepted_calls] at hs
              simp [hs.1, hs.2]
          · cases h5 : memcmp_eq (cycle_final_buffer e s) rx_final_msg ALL_MSG_COMMON_LEN
            · rw [ss_init_run_final_rejected P e s hp h3 h4 h5] at hr
              cases hr
              simp only [new_actions_append, sent_payloads_append] at hs
              split_ifs at hs <;> simp [sent_payloads, accepted_calls] at hs <;>
                simp [hs.1, hs.2]
            · rw [ss_init_run_accepted P e s ⟨hp, h3, h4, h5⟩] at hr
              cases hr
              simp only [new_actions_append, sent_payloads_append, gate_calls] at hs
              split_ifs at hs <;> simp [sent_payloads, accepted_calls] at hs <;>
                simp [hs.1, hs.2]

/-! ## Claim on the offset of the authentication byte -/

theorem resp_poll_payload_key (e : RespEnv) (s : RespState) (h : s.tx_poll_msg.length = 26) :
    (resp_poll_payload e s)[23]? = some (resp_public_key e) := by
  unfold resp_poll_payload
  rw [tx_payload_getElem? _ _ _ (by decide), List.getElem?_set, if_pos rfl, if_pos (by omega)]

theorem resp_final_payload_key (P : Platform) (e : RespEnv) (s : RespState)
    (h : s.tx_final_msg.length = 26) :
    (resp_final_payload P e s)[23]? = some (resp_shared_key P e s) := by
  unfold resp_final_payload resp_cycle_final_msg
  rw [tx_payload_getElem? _ _ _ (by decide), resp_final_msg_key _ _ _ _ _ h]

theorem init_resp_payload_key (e : InitEnv) (s : InitState) (h : s.tx_resp_msg.length = 27) :
    (init_resp_payload e s)[12]? = some (mod_pow 5 (e.rand % 85) 29) := by
  unfold init_resp_payload ALL_MSG_SN_IDX
  rw [tx_payload_getElem? _ _ _ (by decide), List.getElem?_set_ne (by decide),
    List.getElem?_set, if_pos rfl, if_pos (by omega)]

/-- After a read that took place, a byte of the buffer below the length of the frame is
the byte of the frame, the sequence-number byte excepted. -/
theorem read_buffer_getD (buf frame : List Nat) (i : Nat) (hb : buf.length = 26)
    (hi : i < 26) (hf : i < frame.length) (h2 : i ≠ 2) :
    ((dwt_readrxdata buf frame).set ALL_MSG_SN_IDX 0).getD i 0 = frame.getD i 0 := by
  unfold ALL_MSG_SN_IDX
  rw [List.getD_eq_getElem?_getD, List.getElem?_set_ne (fun h => h2 h.symm),
    dwt_readrxdata_getElem?, if_pos (by omega), if_pos hf, List.getD_eq_getElem?_getD]

/-- C14 (as amended). Authentication byte offset: in the poll and in the final frame the
key-agreement/authentication byte is written by the sending engine (`ss_resp_run`) and read
by the receiving engine (`ss_init_run`) at byte offset 23 of the frame; in the response
frame it is written by `ss_init_run` and read by `ss_resp_run` at byte offset 12. -/
theorem authentication_byte_offsets (P : Platform) (eI : InitEnv) (eR : RespEnv)
    (sI sI1 : InitState) (sR sR1 : RespState) (hI : sI.well_formed) (hR : sR.well_formed) :
    (ss_resp_run P eR sR = some sR1 →
      ∀ (poll : List Nat) (rest : List (List Nat)),
        sent_payloads (new_actions sR.log sR1.log) = poll :: rest →
        poll[23]? = some (resp_public_key eR) ∧
        ∀ final ∈ rest, final[23]? = some (resp_shared_key P eR sR)) ∧
    (ss_init_run P eI sI = some sI1 →
      ∀ resp ∈ sent_payloads (new_actions sI.log sI1.log),
        resp[12]? = some (mod_pow 5 (eI.rand % 85) 29)) ∧
    (24 ≤ eI.poll_frame.length → eI.poll_frame.length ≤ 26 →
      cycle_shared_key eI sI = mod_pow (eI.poll_frame.getD 23 0) (eI.rand % 85) 29) ∧
    (24 ≤ eI.final_frame.length → eI.final_frame.length ≤ 26 →
      cycle_ans eI sI = eI.final_frame.getD 23 0) ∧
    (13 ≤ eR.resp_frame.length → eR.resp_frame.length ≤ P.RX_BUFFER_LEN →
      resp_shared_key P eR sR = mod_pow (eR.resp_frame.getD 12 0) (eR.rand % 100) 29) := by
  obtain ⟨hbI, hmI⟩ := hI
  obtain ⟨hbR, hpR, hfR, -⟩ := hR
  refine ⟨?_, ?_, ?_, ?_, ?_⟩
  · intro hr poll rest hs
    rcases ss_resp_run_payloads P eR sR sR1 hr with h | ⟨-, h⟩
    · rw [h] at hs
      cases hs
      exact ⟨resp_poll_payload_key eR sR hpR, by simp⟩
    · rw [h] at hs
      cases hs
      refine ⟨resp_poll_payload_key eR sR hpR, ?_⟩
      intro final hf
      rw [List.mem_singleton] at hf
      rw [hf]
      exact resp_final_payload_key P eR sR hfR
  · intro hr resp hmem
    rcases ss_init_run_payloads P eI sI sI1 hr with h | h
    · rw [h] at hmem
      exact absurd hmem (List.not_mem_nil _)
    · rw [h, List.mem_singleton] at hmem
      rw [hmem]
      exact init_resp_payload_key eI sI hmI
  · intro h1 h2
    unfold cycle_shared_key
    have hb : init_poll_buffer eI sI.rx_buffer =
        (dwt_readrxdata sI.rx_buffer eI.poll_frame).set ALL_MSG_SN_IDX 0 := by
      unfold init_poll_buffer RX_BUF_LEN
      simp only []
      rw [if_pos h2]
    rw [hb, read_buffer_getD _ _ 23 hbI (by decide) (by omega) (by decide)]
  · intro h1 h2
    unfold cycle_ans cycle_final_buffer
    have hb : init_final_buffer eI (init_poll_buffer eI sI.rx_buffer) =
        (dwt_readrxdata (init_poll_buffer eI sI.rx_buffer) eI.final_frame).set
          ALL_MSG_SN_IDX 0 := by
      unfold init_final_buffer
      simp only []
      rw [if_neg (by omega), if_pos (by omega)]
    rw [hb, read_buffer_getD _ _ 23 (by rw [init_poll_buffer_length, hbI]) (by decide)
      (by omega) (by decide)]
  · intro h1 h2
    unfold resp_shared_key
    have hb : resp_buffer P eR sR.rx_buffer =
        (dwt_readrxdata sR.rx_buffer eR.resp_frame).set ALL_MSG_SN_IDX 0 := by
      unfold resp_buffer
      simp only []
      rw [if_pos h2]
    rw [hb, read_buffer_getD _ _ 12 hbR (by decide) (by omega) (by decide)]

theorem authentication_byte_offsets_witness :
    (∃ sR1, ss_resp_run demo_platform demo_resp_env RespState.initial = some sR1 ∧
      ∀ (poll : List Nat) (rest : List (List Nat)),
        sent_payloads (new_actions RespState.initial.log sR1.log) = poll :: rest →
        poll[23]? = some (resp_public_key demo_resp_env) ∧
        ∀ final ∈ rest,
          final[23]? = some (resp_shared_key demo_platform demo_resp_env RespState.initial)) ∧
    (∃ sI1, ss_init_run demo_platform demo_init_env InitState.initial = some sI1 ∧
      ∀ resp ∈ sent_payloads (new_actions InitState.initial.log sI1.log),
        resp[12]? = some (mod_pow 5 (demo_init_env.rand % 85) 29)) ∧
    cycle_shared_key demo_init_env InitState.initial =
      mod_pow (demo_init_env.poll_frame.getD 23 0) (demo_init_env.rand % 85) 29 ∧
    cycle_ans demo_init_env InitState.initial = demo_init_env.final_frame.getD 23 0 ∧
    resp_shared_key demo_platform demo_resp_env RespState.initial =
      mod_pow (demo_resp_env.resp_frame.getD 12 0) (demo_resp_env.rand % 100) 29 := by
  have hR := ss_resp_run_final_sent demo_platform demo_resp_env RespState.initial
    demo_resp_accepted rfl rfl
  have hI := ss_init_run_accepted demo_platform demo_init_env InitState.initial (by decide)
  have h := fun sI1 sR1 => authentication_byte_offsets demo_platform demo_init_env
    demo_resp_env InitState.initial sI1 RespState.initial sR1 (by decide) (by decide)
  refine ⟨⟨_, hR, (h InitState.initial _).1 hR⟩, ⟨_, hI, (h _ RespState.initial).2.1 hI⟩,
    ?_, ?_, ?_⟩
  · exact (h InitState.initial RespState.initial).2.2.1 (by decide) (by decide)
  · exact (h InitState.initial RespState.initial).2.2.2.1 (by decide) (by decide)
  · exact (h InitState.initial RespState.initial).2.2.2.2 (by decide) (by decide)

/-- C14 (counterexample). In the demonstration exchange the response handed to the radio
by `ss_init_run` carries the public key 28 at offset 12 and 0 at offset 23, and the shared
key of `ss_resp_run` follows byte 12 of the response and not byte 23. -/
theorem response_key_byte_not_at_23 :
    mod_pow 5 (demo_init_env.rand % 85) 29 = 28 ∧
    (∃ s1, ss_init_run demo_platform demo_init_env InitState.initial = some s1 ∧
      ∀ resp ∈ sent_payloads (new_actions InitState.initial.log s1.log),
        resp[12]? = some 28 ∧ resp[23]? = some 0) ∧
    resp_shared_key demo_platform demo_resp_env RespState.initial = 28 ∧
    resp_shared_key demo_platform
      { demo_resp_env with resp_frame := demo_resp_env.resp_frame.set 23 99 }
      RespState.initial = 28 ∧
    resp_shared_key demo_platform
      { demo_resp_env with resp_frame := demo_resp_env.resp_frame.set 12 5 }
      RespState.initial = 13 := by
  have hI := ss_init_run_accepted demo_platform demo_init_env InitState.initial (by decide)
  refine ⟨demo_init_public_key, ⟨_, hI, ?_⟩, demo_resp_shared_key, ?_, ?_⟩
  · intro resp hmem
    rcases ss_init_run_payloads _ _ _ _ hI with h | h
    · rw [h] at hmem
      exact absurd hmem (List.not_mem_nil _)
    · rw [h, List.mem_singleton] at hmem
      rw [hmem]
      unfold init_resp_payload
      rw [demo_init_public_key]
      decide
  · have h : (resp_buffer demo_platform
        { demo_resp_env with resp_frame := demo_resp_env.resp_frame.set 23 99 }
        RespState.initial.rx_buffer).getD 12 0 = 28 := by decide
    unfold resp_shared_key
    rw [h]
    simp [demo_resp_env, mod_pow, mod_pow_loop, u8, u32]
  · have h : (resp_buffer demo_platform
        { demo_resp_env with resp_frame := demo_resp_env.resp_frame.set 12 5 }
        RespState.initial.rx_buffer).getD 12 0 = 5 := by decide
    unfold resp_shared_key
    rw [h]
    simp [demo_resp_env, mod_pow, mod_pow_loop, u8, u32]

/-! ## Claim on the interoperability of the templates -/

/-- The header of a payload followed by the checksum is the header of the message. -/
theorem payload_crc_header (size : Nat) (msg crc tmpl : List Nat) (hs : 12 ≤ size)
    (hl : size ≤ msg.length) :
    header_matches (tx_payload size msg ++ crc) tmpl ↔ header_matches msg tmpl := by
  unfold header_matches header_positions
  have key : ∀ j ∈ [0, 1, 3, 4, 5, 6, 7, 8, 9], (tx_payload size msg ++ crc)[j]? = msg[j]? := by
    intro j hj
    simp only [List.mem_cons, List.mem_singleton, List.not_mem_nil, or_false] at hj
    rw [List.getElem?_append_left (by rw [tx_payload_length _ _ hl]; omega),
      tx_payload_getElem? _ _ _ (by omega)]
  constructor
  · intro h j hj; rw [← key j hj]; exact h j hj
  · intro h j hj; rw [key j hj]; exact h j hj

theorem poll_verdict_iff (e : InitEnv) (buf frame : List Nat) (hb : buf.length = 26)
    (h10 : 10 ≤ frame.length) (h26 : frame.length ≤ 26) :
    poll_verdict e buf frame = true ↔ header_matches frame rx_poll_msg := by
  unfold poll_verdict init_poll_buffer
  simp only [RX_BUF_LEN]
  rw [if_pos h26]
  exact memcmp_after_read buf frame rx_poll_msg hb h10 rfl

theorem final_verdict_iff (e : InitEnv) (buf frame : List Nat) (hb : buf.length = 26)
    (h10 : 10 ≤ frame.length)
    (hok : frame.length ≤ 20 ∨ frame.length = 24 ∨ frame.length = 25 ∨ frame.length = 26) :
    final_verdict e buf frame = true ↔ header_matches frame rx_final_msg := by
  unfold final_verdict init_final_buffer
  simp only []
  by_cases h20 : frame.length ≤ 20
  · rw [if_pos h20]
    exact memcmp_after_read buf frame rx_final_msg hb h10 rfl
  · rw [if_neg h20, if_pos (by omega)]
    exact memcmp_after_read buf frame rx_final_msg hb h10 rfl

theorem resp_verdict_iff (P : Platform) (e : RespEnv) (buf frame : List Nat)
    (hb : buf.length = 26) (h10 : 10 ≤ frame.length) (hok : frame.length ≤ P.RX_BUFFER_LEN) :
    resp_verdict P e buf frame = true ↔ header_matches frame rx_resp_msg := by
  unfold resp_verdict resp_buffer
  simp only []
  rw [if_pos hok]
  exact memcmp_after_read buf frame rx_resp_msg hb h10 rfl

theorem resp_poll_payload_passes (eI : InitEnv) (e : RespEnv) (s : RespState)
    (buf crc : List Nat) (hs : s.templates_intact) (hb : buf.length = 26)
    (hc : crc.length = 2) : poll_verdict eI buf (resp_poll_payload e s ++ crc) = true := by
  obtain ⟨⟨-, hp, -, -⟩, hh⟩ := hs
  have hl : (resp_poll_payload e s ++ crc).length = 26 := by
    unfold resp_poll_payload
    rw [List.length_append, tx_payload_length _ _ (by rw [List.length_set, hp]), hc]
  rw [poll_verdict_iff _ _ _ hb (by omega) (by omega)]
  unfold resp_poll_payload
  rw [payload_crc_header _ _ _ _ (by decide) (by rw [List.length_set, hp]),
    header_matches_set_other _ _ _ _ (Or.inr (by decide))]
  exact hh

theorem resp_final_payload_passes (P : Platform) (eI : InitEnv) (e : RespEnv)
    (s : RespState) (buf crc : List Nat) (hs : s.templates_intact) (hb : buf.length = 26)
    (hc : crc.length = 2) :
    final_verdict eI buf (resp_final_payload P e s ++ crc) = true := by
  obtain ⟨⟨-, -, hf, hh⟩, -⟩ := hs
  have hlen : (resp_cycle_final_msg P e s).length = 26 := by
    unfold resp_cycle_final_msg
    rw [resp_final_msg_length, hf]
  have hl : (resp_final_payload P e s ++ crc).length = 26 := by
    unfold resp_final_payload
    rw [List.length_append, tx_payload_length _ _ (by rw [hlen]), hc]
  rw [final_verdict_iff _ _ _ hb (by omega) (by omega)]
  unfold resp_final_payload
  rw [payload_crc_header _ _ _ _ (by decide) (by rw [hlen])]
  intro i hi
  unfold resp_cycle_final_msg
  rw [resp_final_msg_header _ _ _ _ _ _ hi]
  exact hh i hi

theorem init_resp_payload_passes (P : Platform) (eR : RespEnv) (e : InitEnv)
    (s : InitState) (buf crc : List Nat) (hs : s.templates_intact) (hb : buf.length = 26)
    (hc : crc.length = 2) (hP : 27 ≤ P.RX_BUFFER_LEN) :
    resp_verdict P eR buf (init_resp_payload e s ++ crc) = true := by
  obtain ⟨⟨-, hm⟩, hh⟩ := hs
  have hlen : ((s.tx_resp_msg.set 12 (mod_pow 5 (e.rand % 85) 29)).set ALL_MSG_SN_IDX
      s.frame_seq_nb).length = 27 := by
    rw [List.length_set, List.length_set, hm]
  have hl : (init_resp_payload e s ++ crc).length = 27 := by
    unfold init_resp_payload
    rw [List.length_append, tx_payload_length _ _ (by rw [hlen]), hc]
  rw [resp_verdict_iff _ _ _ _ hb (by omega) (by omega)]
  unfold init_resp_payload
  rw [payload_crc_header _ _ _ _ (by decide) (by rw [hlen]),
    header_matches_set_other _ _ ALL_MSG_SN_IDX _ (Or.inl rfl),
    header_matches_set_other _ _ _ _ (Or.inr (by decide))]
  exact hh

/-- A returning responder cycle leaves bytes 0, 1, 3..9 of its two templates as they
were. -/
theorem ss_resp_run_header_kept (P : Platform) (e : RespEnv) (s s1 : RespState)
    (hr : ss_resp_run P e s = some s1) :
    ∀ i ∈ header_positions,
      s1.tx_poll_msg[i]? = s.tx_poll_msg[i]? ∧ s1.tx_final_msg[i]? = s.tx_final_msg[i]? := by
  intro i hi
  have hne : 23 ≠ i := by
    unfold header_positions at hi
    simp only [List.mem_cons, List.mem_singleton, List.not_mem_nil, or_false] at hi
    omega
  have hfin : (resp_cycle_final_msg P e s)[i]? = s.tx_final_msg[i]? := by
    unfold resp_cycle_final_msg
    exact resp_final_msg_header _ _ _ _ _ _ hi
  cases h1 : e.poll_starttx_ok
  · rw [ss_resp_run_starttx_failed P e s h1] at hr
    cases hr
    exact ⟨List.getElem?_set_ne hne, rfl⟩
  · cases h2 : e.status.rxfcg
    · cases h3 : (e.status.rx_to || e.status.rx_err)
      · rw [ss_resp_run_wait_stuck P e s h1 (by simp [h2] at h3 ⊢; simp [h3])] at hr
        exact Option.noConfusion hr
      · rw [ss_resp_run_timeout P e s h1 h2 h3] at hr
        cases hr
        exact ⟨List.getElem?_set_ne hne, rfl⟩
    · cases h3 : memcmp_eq (resp_buffer P e s.rx_buffer) rx_resp_msg ALL_MSG_COMMON_LEN
      · rw [ss_resp_run_rejected P e s h1 h2 h3] at hr
        cases hr
        exact ⟨List.getElem?_set_ne hne, rfl⟩
      · have ha : response_accepted P e s := ⟨h1, h2, h3⟩
        cases h4 : e.final_starttx_ok
        · rw [ss_resp_run_final_failed P e s ha h4] at hr
          cases hr
          exact ⟨List.getElem?_set_ne hne, hfin⟩
        · cases h5 : e.txfrs
          · rw [ss_resp_run_final_stuck P e s ha h4 h5] at hr
            exact Option.noConfusion hr
          · rw [ss_resp_run_final_sent P e s ha h4 h5] at hr
            cases hr
            exact ⟨List.getElem?_set_ne hne, hfin⟩

/-- A returning initiator cycle leaves bytes 0, 1, 3..9 of its template as they were. -/
theorem ss_init_run_header_kept (P : Platform) (e : InitEnv) (s s1 : InitState)
    (hr : ss_init_run P e s = some s1) :
    ∀ i ∈ header_positions, s1.tx_resp_msg[i]? = s.tx_resp_msg[i]? := by
  intro i hi
  have hne : 12 ≠ i ∧ ALL_MSG_SN_IDX ≠ i := by
    unfold header_positions at hi
    simp only [List.mem_cons, List.mem_singleton, List.not_mem_nil, or_false] at hi
    unfold ALL_MSG_SN_IDX
    omega
  have hset : ((s.tx_resp_msg.set 12 (mod_pow 5 (e.rand % 85) 29)).set ALL_MSG_SN_IDX
      s.frame_seq_nb)[i]? = s.tx_resp_msg[i]? := by
    rw [List.getElem?_set_ne hne.2, List.getElem?_set_ne hne.1]
  cases h1 : e.poll_wait.rx_ok
  · cases h2 : (e.poll_wait.rx_to || e.poll_wait.rx_err)
    · rw [ss_init_run_poll_stuck P e s (by simp [h1, h2])] at hr
      exact Option.noConfusion hr
    · rw [ss_init_run_poll_timeout P e s h1 h2] at hr
      cases hr
      rfl
  · cases h2 : memcmp_eq (init_poll_buffer e s.rx_buffer) rx_poll_msg ALL_MSG_COMMON_LEN
    · rw [ss_init_run_poll_rejected P e s h1 h2] at hr
      cases hr
      rfl
    · have hp : poll_accepted e s := ⟨h1, h2⟩
      cases h3 : e.tx_conf
      · rw [ss_init_run_tx_stuck P e s hp h3] at hr
        exact Option.noConfusion hr
      · cases h4 : e.final_wait.rx_ok
        · cases h5 : ((e.poll_wait.rx_to || e.final_wait.rx_to) || e.final_wait.rx_err)
          · rw [ss_init_run_final_stuck P e s hp h3 (by simp [h4] at h5 ⊢; simp [h5])] at hr
            exact Option.noConfusion hr
          · rw [ss_init_run_final_timeout P e s hp h3 h4 h5] at hr
            cases hr
            exact hset
        · cases h5 : memcmp_eq (cycle_final_buffer e s) rx_final_msg ALL_MSG_COMMON_LEN
          · rw [ss_init_run_final_rejected P e s hp h3 h4 h5] at hr
            cases hr
            exact hset
          · rw [ss_init_run_accepted P e s ⟨hp, h3, h4, h5⟩] at hr
            cases hr
            exact hset

end KeylessEntry
